import Mathlib

/-!
# Product Consistency Verification Engine — formal model

A shallow embedding, in Lean 4, of the rule-based verification engine of the
gtrackAgent repository (`src/controllers/productController.js` and the sibling
controller generation that adds Clarifai-based image verification).

Conventions used throughout:
* JavaScript strings are modelled as `List Char` (`Str`); a missing / `null`
  string field is modelled as the empty string, matching JavaScript truthiness
  (`null`, `undefined` and `''` behave identically in every guard of the
  translated code).
* JavaScript numbers are modelled as exact fractions (the type `Q` below).
  Every numeric comparison proved about below involves decimal constants far
  from any floating-point rounding boundary.
* `String.prototype.includes` is `containsSub`, `Array.prototype.includes`
  is list membership, `split` / `trim` are translated literally.
-/

set_option maxHeartbeats 4000000
set_option maxRecDepth 4000

abbrev Str := List Char

def str (s : String) : Str := s.data

/-- `String.prototype.toLowerCase`, restricted to the ASCII range used by the
repository's vocabulary tables. -/
def lowerStr (s : Str) : Str := s.map Char.toLower

/-- Boolean prefix test. -/
def prefixAt : Str → Str → Bool
  | [], _ => true
  | _ :: _, [] => false
  | p :: ps, c :: cs => (p = c) && prefixAt ps cs

/-- `String.prototype.includes pat` — substring containment. -/
def containsSub : Str → Str → Bool
  | pat, [] => pat.isEmpty
  | pat, c :: rest => prefixAt pat (c :: rest) || containsSub pat rest

/-- The JavaScript word-character class `\w = [A-Za-z0-9_]`. -/
def isWordChar (c : Char) : Bool :=
  (('a' ≤ c && c ≤ 'z') || ('A' ≤ c && c ≤ 'Z') || ('0' ≤ c && c ≤ '9') || c = '_')

/-- The whitespace class `\s` as it occurs in the repository's data (plain
spaces, tabs and line breaks). -/
def isSpaceChar (c : Char) : Bool :=
  (c = ' ' || c = '\t' || c = '\n' || c = '\r')

def isDigitChar (c : Char) : Bool := ('0' ≤ c && c ≤ '9')

/-- `String.prototype.trim`. -/
def trimStr (s : Str) : Str :=
  ((s.dropWhile (isSpaceChar ·)).reverse.dropWhile (isSpaceChar ·)).reverse

/-- `String.prototype.split` on a character class: JavaScript keeps empty
pieces between consecutive separators, as does this translation. -/
def splitOnPred (p : Char → Bool) : Str → List Str
  | [] => [[]]
  | c :: rest =>
      let r := splitOnPred p rest
      if p c then [] :: r
      else match r with
        | [] => [[c]]
        | piece :: more => (c :: piece) :: more

/-- `Array.prototype.join sep`. -/
def joinWith (sep : Str) : List Str → Str
  | [] => []
  | [x] => x
  | x :: y :: rest => x ++ sep ++ joinWith sep (y :: rest)

/-- First occurrence replacement, `String.prototype.replace` with a plain
string pattern. -/
def replaceFirst (pat repl : Str) : Str → Str
  | [] => if pat.isEmpty then repl else []
  | c :: rest =>
      if prefixAt pat (c :: rest) then repl ++ (c :: rest).drop pat.length
      else c :: replaceFirst pat repl rest

/-- Decimal digits of a natural number (fuel-based, structurally recursive). -/
def natDigitsAux : Nat → Nat → Str
  | 0, _ => []
  | _ + 1, n =>
      if n = 0 then []
      else natDigitsAux n (n / 10) ++ [Char.ofNat (48 + n % 10)]

def natToStr (n : Nat) : Str :=
  if n = 0 then str "0" else natDigitsAux (n + 1) n

def intToStr (i : Int) : Str :=
  if i < 0 then '-' :: natToStr i.natAbs else natToStr i.natAbs

/-! ## Exact rational arithmetic

JavaScript numbers are modelled by exact fractions.  `Q` is an unnormalized
fraction of integers whose denominator is positive by construction (every
constructor below and every operation preserves `0 < d`), so the
cross-multiplication comparisons are the ordinary rational ones.  A bespoke
type is used instead of `ℚ` so that every arithmetic step reduces inside the
kernel (`ℚ`'s gcd-normalising multiplication does not). -/

structure Q where
  n : Int
  d : Int
deriving DecidableEq, Repr

/-- The fraction `a / b` for a positive literal denominator `b`. -/
def qd (a b : Int) : Q := ⟨a, b⟩

def qi (a : Int) : Q := ⟨a, 1⟩

instance : OfNat Q k := ⟨⟨k, 1⟩⟩

def qadd (a b : Q) : Q := ⟨a.n * b.d + b.n * a.d, a.d * b.d⟩
def qsub (a b : Q) : Q := ⟨a.n * b.d - b.n * a.d, a.d * b.d⟩
def qmul (a b : Q) : Q := ⟨a.n * b.n, a.d * b.d⟩
/-- Division, used only with positive divisors. -/
def qdiv (a b : Q) : Q := ⟨a.n * b.d, a.d * b.n⟩
def qlt (a b : Q) : Bool := a.n * b.d < b.n * a.d
def qle (a b : Q) : Bool := a.n * b.d ≤ b.n * a.d
/-- Value equality of fractions (`=` on `Q` is representation equality). -/
def qeqb (a b : Q) : Bool := a.n * b.d = b.n * a.d
def qmin (a b : Q) : Q := if qle a b then a else b
def qmax (a b : Q) : Q := if qle a b then b else a
def qfloor (a : Q) : Int := Int.fdiv a.n a.d

/-- `Math.round` — JavaScript rounds half-up (towards `+∞`). -/
def jsRound (a : Q) : Int := qfloor (qadd a (qd 1 2))

/-- `Number.prototype.toFixed 0` for the values the repository stringifies
(all of them have the round-trip-exact form `k` or `k.5`). -/
def qToFixed0 (a : Q) : Str := intToStr (jsRound a)

/-- JavaScript `a || b` on numbers: `0`, like `undefined`, is falsy. -/
def jsOrNum (a : Option Q) (b : Q) : Q :=
  match a with
  | some v => if qeqb v 0 then b else v
  | none => b

/-! ## Substring decomposition lemmas -/

theorem prefixAt_iff {p s : Str} : prefixAt p s = true ↔ ∃ t, s = p ++ t := by
  induction p generalizing s with
  | nil => simp [prefixAt]
  | cons a ps ih =>
      cases s with
      | nil => simp [prefixAt]
      | cons c cs =>
          simp only [prefixAt, Bool.and_eq_true, decide_eq_true_eq, ih,
            List.cons_append, List.cons.injEq]
          constructor
          · rintro ⟨rfl, t, rfl⟩; exact ⟨t, rfl, rfl⟩
          · rintro ⟨t, rfl, rfl⟩; exact ⟨rfl, t, rfl⟩

theorem containsSub_iff {p s : Str} :
    containsSub p s = true ↔ ∃ x y, s = x ++ p ++ y := by
  induction s with
  | nil =>
      simp only [containsSub, List.isEmpty_iff]
      constructor
      · rintro rfl; exact ⟨[], [], rfl⟩
      · rintro ⟨x, y, h⟩
        rcases List.append_eq_nil.mp ((List.append_eq_nil).mp h.symm).1 with ⟨-, h2⟩
        exact h2
  | cons c rest ih =>
      simp only [containsSub, Bool.or_eq_true]
      constructor
      · rintro (h | h)
        · rcases prefixAt_iff.mp h with ⟨t, ht⟩
          exact ⟨[], t, by simpa using ht⟩
        · rcases ih.mp h with ⟨x, y, hxy⟩
          exact ⟨c :: x, y, by simp [hxy]⟩
      · rintro ⟨x, y, hxy⟩
        cases x with
        | nil =>
            left
            exact prefixAt_iff.mpr ⟨y, by simpa using hxy⟩
        | cons d x' =>
            right
            refine ih.mpr ⟨x', y, ?_⟩
            have h2 := hxy
            simp only [List.cons_append] at h2
            exact (List.cons.injEq _ _ _ _ ▸ h2).2

theorem containsSub_of_decomp {p s x y : Str} (h : s = x ++ p ++ y) :
    containsSub p s = true :=
  containsSub_iff.mpr ⟨x, y, h⟩

/-- Substring containment is transitive. -/
theorem containsSub_trans {p q s : Str} (hpq : containsSub p q = true)
    (hqs : containsSub q s = true) : containsSub p s = true := by
  rcases containsSub_iff.mp hpq with ⟨a, b, hab⟩
  rcases containsSub_iff.mp hqs with ⟨x, y, hxy⟩
  exact containsSub_of_decomp (s := s) (x := x ++ a) (y := b ++ y)
    (by rw [hxy, hab]; simp)

/-! ## `inferUnitType` (productController.js, lines 84–123)

The `Unit` model has no `type` field, so the controller infers a dimension
from the unit's code and name by case-insensitive substring tests against
ordered term lists.  `null` input yields `null`. -/

structure UnitData where
  unit_code : Str
  unit_name : Str
deriving DecidableEq, Repr

def rateTerms : List Str :=
  [str "per", str "perhour", str "persecond", str "perminute", str "ph",
   str "ps", str "pm", str "hz", str "rpm", str "sps", str "mps", str "fps",
   str "m60"]

def volumeTerms : List Str :=
  [str "l", str "ml", str "liter", str "litre", str "gallon", str "oz",
   str "fluid", str "ltr", str "fl"]

def weightTerms : List Str :=
  [str "kg", str "g", str "mg", str "lb", str "pound", str "ton",
   str "gram", str "kilo"]

def quantityTerms : List Str :=
  [str "pc", str "piece", str "unit", str "each", str "item", str "count",
   str "ea"]

def lengthTerms : List Str :=
  [str "m", str "cm", str "mm", str "ft", str "inch", str "yard",
   str "metre", str "meter"]

def lengthExcludeTerms : List Str := [str "per", str "perhour", str "persecond"]

/-- `terms.some(term => unitName.includes(term) || unitCode.includes(term))` -/
def anyTermIn (terms : List Str) (a b : Str) : Bool :=
  terms.any fun t => containsSub t a || containsSub t b

def inferUnitTypeCore (d : UnitData) : Str :=
  let unitName := lowerStr d.unit_name
  let unitCode := lowerStr d.unit_code
  if anyTermIn rateTerms unitName unitCode then str "rate"
  else if anyTermIn volumeTerms unitName unitCode then str "volume"
  else if anyTermIn weightTerms unitName unitCode then str "weight"
  else if anyTermIn quantityTerms unitName unitCode then str "quantity"
  else if anyTermIn lengthTerms unitName unitCode &&
          !(anyTermIn lengthExcludeTerms unitName unitCode) then str "length"
  else str "unknown"

def inferUnitType (d : Option UnitData) : Option Str :=
  match d with
  | none => none
  | some u => some (inferUnitTypeCore u)

example : inferUnitType (some ⟨str "KG", str ""⟩) = some (str "weight") := by decide
example : inferUnitType (some ⟨str "", str "Kilogram"⟩) = some (str "volume") := by decide
example : inferUnitType (some ⟨str "L", str ""⟩) = some (str "volume") := by decide
example : inferUnitType (some ⟨str "PC", str ""⟩) = some (str "quantity") := by decide

/-! ## Word-boundary regex matchers

The controller's contextual rules are regular expressions of a few fixed
shapes over lower-cased text.  Each shape is translated to a structurally
recursive scanner.  A `\b` before or after a purely alphabetic alternation
word holds exactly when the neighbouring character (if any) is not a word
character, which is what `boundaryAfter` and the `prevW` accumulator test. -/

def boundaryAfter : Str → Bool
  | [] => true
  | c :: _ => !isWordChar c

/-- `/\b(w₁|w₂|…)\b/` for purely alphabetic alternatives: scan every
position, tracking whether the previous character was a word character. -/
def wordScan (alts : List Str) : Bool → Str → Bool
  | _, [] => false
  | prevW, c :: rest =>
      (!prevW && alts.any fun w =>
        prefixAt w (c :: rest) && boundaryAfter (List.drop w.length (c :: rest)))
      || wordScan alts (isWordChar c) rest

def hasWord (alts : List Str) (s : Str) : Bool := wordScan alts false s

/-- `/\b(a…)\b.*\b(b…)\b/`: some `a` alternative matches with boundaries and
some `b` alternative matches with boundaries at or after its end.  The `b`
scan starts with `prevW = true` because every alternative ends in a word
character. -/
def wordThenWord (as bs : List Str) : Bool → Str → Bool
  | _, [] => false
  | prevW, c :: rest =>
      (!prevW && as.any fun w =>
        prefixAt w (c :: rest) && boundaryAfter (List.drop w.length (c :: rest)) &&
        wordScan bs true (List.drop w.length (c :: rest)))
      || wordThenWord as bs (isWordChar c) rest

def hasWordPair (as bs : List Str) (s : Str) : Bool := wordThenWord as bs false s

/-- `\s+` followed by one of `bs` as a plain prefix (no boundary), used by the
adjacency patterns `(a…)\s+(b…)`. -/
def afterSpaces (bs : List Str) : Str → Bool
  | [] => false
  | c :: rest => bs.any (fun b => prefixAt b (c :: rest)) || (isSpaceChar c && afterSpaces bs rest)

def spacesThen (bs : List Str) : Str → Bool
  | [] => false
  | c :: rest => isSpaceChar c && afterSpaces bs rest

/-- One position of the adjacency pattern: some `a` alternative is a prefix
here, followed by `\s+` and a `b` alternative. -/
def adjHead (as bs : List Str) (s : Str) : Bool :=
  as.any fun a => prefixAt a s && spacesThen bs (List.drop a.length s)

/-- `/(a₁|a₂|…)\s+(b₁|b₂|…)/` — adjacency with whitespace, no `\b`. -/
def adjScan (as bs : List Str) : Str → Bool
  | [] => false
  | c :: rest => adjHead as bs (c :: rest) || adjScan as bs rest

/-- Consume one-or-more decimal digits; `none` when the first character is
not a digit. -/
def dropDigits : Str → Str
  | [] => []
  | c :: rest => if isDigitChar c then dropDigits rest else c :: rest

def digits1 : Str → Option Str
  | [] => none
  | c :: rest => if isDigitChar c then some (dropDigits rest) else none

/-- `\d+w\d+\b` anchored at the head of the remaining input (`/i` on the `w`).
The greedy `\d+` needs no backtracking: the follow-set of each `\d+` contains
no digit. -/
def viscosityHead (s : Str) : Bool :=
  match digits1 s with
  | none => false
  | some r1 =>
      match r1 with
      | [] => false
      | c :: r2 =>
          (c = 'w' || c = 'W') &&
          (match digits1 r2 with
           | none => false
           | some r3 => boundaryAfter r3)

/-- `/\b\d+w\d+\b/i` — the viscosity-grade token pattern (e.g. `5W30`). -/
def viscosityScan : Bool → Str → Bool
  | _, [] => false
  | prevW, c :: rest => (!prevW && viscosityHead (c :: rest)) || viscosityScan (isWordChar c) rest

def hasViscosityToken (s : Str) : Bool := viscosityScan false s

/-- `/\b(sae)\b.*\b\d+w\d+\b/i`. -/
def saeViscosityScan : Bool → Str → Bool
  | _, [] => false
  | prevW, c :: rest =>
      (!prevW && prefixAt (str "sae") (c :: rest) &&
        boundaryAfter (List.drop 3 (c :: rest)) && viscosityScan true (List.drop 3 (c :: rest)))
      || saeViscosityScan (isWordChar c) rest

def hasSaeViscosity (s : Str) : Bool := saeViscosityScan false s

def isAsciiLower (c : Char) : Bool := ('a' ≤ c && c ≤ 'z')

/-- `(s[lpnmfg]|c[hjk])\b` at the head of the remaining input. -/
def apiServiceClass : Str → Bool
  | [] => false
  | c :: rest =>
      (if c = 's' then
        (match rest with
         | d :: r2 => (str "lpnmfg").contains d && boundaryAfter r2
         | [] => false)
       else if c = 'c' then
        (match rest with
         | d :: r2 => (str "hjk").contains d && boundaryAfter r2
         | [] => false)
       else false)

def apiSpacesThenClass : Str → Bool
  | [] => false
  | c :: rest => isSpaceChar c && apiClassAfterSpaces rest
where
  apiClassAfterSpaces : Str → Bool
    | [] => false
    | c :: rest => apiServiceClass (c :: rest) || (isSpaceChar c && apiClassAfterSpaces rest)

/-- `/\bapi\s+(s[lpnmfg]|c[hjk])\b/i` — API engine-oil service categories. -/
def apiServiceScan : Bool → Str → Bool
  | _, [] => false
  | prevW, c :: rest =>
      (!prevW && prefixAt (str "api") (c :: rest) && apiSpacesThenClass (List.drop 3 (c :: rest)))
      || apiServiceScan (isWordChar c) rest

def hasApiService (s : Str) : Bool := apiServiceScan false s

/-- `[a-z]{1,2}\b` at the head of the remaining input (greedy `{1,2}` with
the usual backtracking collapses to this disjunction for a bare test). -/
def oneTwoLettersB : Str → Bool
  | [] => false
  | c :: rest =>
      isAsciiLower c &&
      (boundaryAfter rest ||
       (match rest with
        | d :: r2 => isAsciiLower d && boundaryAfter r2
        | [] => false))

def apiSpacesThenLetters : Str → Bool
  | [] => false
  | c :: rest => isSpaceChar c && apiLettersAfterSpaces rest
where
  apiLettersAfterSpaces : Str → Bool
    | [] => false
    | c :: rest => oneTwoLettersB (c :: rest) || (isSpaceChar c && apiLettersAfterSpaces rest)

/-- `/\b(api\s+[a-z]{1,2})\b/i` (industry rule for automotive oils). -/
def apiLettersScan : Bool → Str → Bool
  | _, [] => false
  | prevW, c :: rest =>
      (!prevW && prefixAt (str "api") (c :: rest) && apiSpacesThenLetters (List.drop 3 (c :: rest)))
      || apiLettersScan (isWordChar c) rest

def hasApiLetters (s : Str) : Bool := apiLettersScan false s

/-- `s[a-z]\b` at the head of the remaining input. -/
def sLetterB : Str → Bool
  | [] => false
  | c :: rest =>
      c = 's' &&
      (match rest with
       | d :: r2 => isAsciiLower d && boundaryAfter r2
       | [] => false)

def apiSpacesThenS : Str → Bool
  | [] => false
  | c :: rest => isSpaceChar c && apiSAfterSpaces rest
where
  apiSAfterSpaces : Str → Bool
    | [] => false
    | c :: rest => sLetterB (c :: rest) || (isSpaceChar c && apiSAfterSpaces rest)

/-- `/\bapi\s+s[a-z]\b/i` (industry rule prohibiting rate units for oils). -/
def apiSScan : Bool → Str → Bool
  | _, [] => false
  | prevW, c :: rest =>
      (!prevW && prefixAt (str "api") (c :: rest) && apiSpacesThenS (List.drop 3 (c :: rest)))
      || apiSScan (isWordChar c) rest

def hasApiS (s : Str) : Bool := apiSScan false s

example : hasViscosityToken (str "promax sp 0w16 sama oil") = true := by decide
example : hasViscosityToken (str "x5w30") = false := by decide
example : hasWordPair [str "engine"] [str "oil"] (str "type of engine oil target") = true := by decide
example : hasApiService (str "api sl rated") = true := by decide

/-! ## `classifyProductType` (productController.js, lines 129–329)

A tiered classifier over the concatenated lower-cased product name, brand
name and classification text: contextual regex rules first, then n-gram
votes, then keyword scoring, then a washing-powder special case.

JavaScript objects used as string-keyed score maps are modelled as
insertion-ordered association lists (`bump` adds to an existing key in
place, `setKey` overwrites it), matching JavaScript property-order
semantics on which the final arg-max iteration depends. -/

def bump (m : List (Str × Q)) (k : Str) (v : Q) : List (Str × Q) :=
  match m with
  | [] => [(k, v)]
  | (k2, v2) :: rest => if k2 = k then (k2, qadd v2 v) :: rest else (k2, v2) :: bump rest k v

def setKey (m : List (Str × Str)) (k v : Str) : List (Str × Str) :=
  match m with
  | [] => [(k, v)]
  | (k2, v2) :: rest => if k2 = k then (k2, v) :: rest else (k2, v2) :: setKey rest k v

def getKeyS (m : List (Str × Str)) (k : Str) : Option Str :=
  (m.find? (fun e => e.1 == k)).map (·.2)

/-- `categoryPatterns` — keyword lists with weight 1.0 each. -/
def categoryPatterns : List (Str × List Str) :=
  [(str "cleaning_product",
    [str "detergent", str "washing powder", str "cleaner", str "soap", str "laundry",
     str "bleach", str "softener", str "stain remover", str "dishwasher"]),
   (str "food_product",
    [str "food", str "edible", str "snack", str "meal", str "nutrition", str "dietary",
     str "eat", str "cook", str "bake", str "breakfast", str "dinner", str "lunch",
     str "vegetable", str "fruit", str "meat"]),
   (str "beverage_product",
    [str "drink", str "beverage", str "water", str "juice", str "soda", str "milk",
     str "coffee", str "tea", str "alcohol", str "wine", str "beer", str "liquor",
     str "cocktail"]),
   (str "oil_product",
    [str "oil", str "lubricant", str "petroleum", str "engine oil", str "motor oil",
     str "fuel", str "gas", str "diesel", str "kerosene", str "petroleum"]),
   (str "personal_care",
    [str "shampoo", str "conditioner", str "lotion", str "cream", str "deodorant",
     str "perfume", str "cologne", str "toothpaste", str "mouthwash", str "makeup",
     str "cosmetic"]),
   (str "electronic_product",
    [str "electronic", str "device", str "computer", str "laptop", str "phone",
     str "smartphone", str "tablet", str "tv", str "television", str "appliance",
     str "gadget"]),
   (str "clothing_product",
    [str "clothing", str "apparel", str "wear", str "dress", str "shirt", str "pant",
     str "jean", str "sock", str "underwear", str "jacket", str "coat", str "shoe"]),
   (str "household_product",
    [str "household", str "furniture", str "decor", str "kitchen", str "bathroom",
     str "bedroom", str "living room", str "table", str "chair", str "bed", str "sofa"])]

/-- `ngramPatterns` — (ngram, category, weight 2.0, expectedUnit). -/
def ngramPatterns : List (Str × Str × Str) :=
  [(str "washing powder", str "cleaning_product", str "weight"),
   (str "laundry detergent", str "cleaning_product", str "volume"),
   (str "dish soap", str "cleaning_product", str "volume"),
   (str "motor oil", str "oil_product", str "volume"),
   (str "engine oil", str "oil_product", str "volume"),
   (str "transmission fluid", str "oil_product", str "volume"),
   (str "olive oil", str "food_product", str "volume"),
   (str "cooking oil", str "food_product", str "volume"),
   (str "soft drink", str "beverage_product", str "volume"),
   (str "mobile phone", str "electronic_product", str "quantity"),
   (str "cell phone", str "electronic_product", str "quantity"),
   (str "t shirt", str "clothing_product", str "quantity"),
   (str "coffee machine", str "electronic_product", str "quantity"),
   (str "coffee maker", str "electronic_product", str "quantity"),
   (str "facial cream", str "personal_care", str "weight"),
   (str "body lotion", str "personal_care", str "volume")]

structure Classification where
  category : Option Str
  confidence : Q
  scores : List (Str × Q)
  expectedUnit : Option Str
  explanation : Option Str
  detectionMethod : Str
  ngramMatches : Option (List Str)
deriving DecidableEq, Repr

/-- Contextual rule 1: engine/motor/transmission/hydraulic near oil/lubricant. -/
def ctxRule1 (t : Str) : Bool :=
  hasWordPair [str "engine", str "motor", str "transmission", str "hydraulic"]
    [str "oil", str "lubricant"] t ||
  hasWordPair [str "oil", str "lubricant"]
    [str "engine", str "motor", str "transmission", str "hydraulic"] t

/-- Contextual rule 2: viscosity grade pattern. -/
def ctxRule2 (t : Str) : Bool := hasViscosityToken t || hasSaeViscosity t

/-- Contextual rule 3: API service category. -/
def ctxRule3 (t : Str) : Bool := hasApiService t

/-- Contextual rule 4: washing/laundry near powder/detergent. -/
def ctxRule4 (t : Str) : Bool :=
  hasWordPair [str "washing", str "laundry"] [str "powder", str "detergent"] t ||
  hasWordPair [str "powder", str "detergent"] [str "washing", str "laundry"] t

/-- Contextual rule 5: cooking/olive/vegetable/… near oil. -/
def ctxRule5 (t : Str) : Bool :=
  hasWordPair [str "cooking", str "olive", str "vegetable", str "sunflower", str "canola"]
    [str "oil"] t ||
  hasWordPair [str "oil"]
    [str "cooking", str "olive", str "vegetable", str "sunflower", str "canola"] t

def ctxReturn (cat : Str) (conf : Q) (eu : Str) (expl : String) : Classification :=
  { category := some cat
    confidence := qmul conf 100
    scores := [(cat, conf)]
    expectedUnit := some eu
    explanation := some (str expl)
    detectionMethod := str "contextual_rule"
    ngramMatches := none }

/-- n-gram accumulation pass: score map, matched n-grams, unit suggestions. -/
def ngramPass (t : Str) :
    List (Str × Q) × List Str × List (Str × Str) :=
  ngramPatterns.foldl
    (fun acc p =>
      if containsSub p.1 t then
        (bump acc.1 p.2.1 2, acc.2.1 ++ [p.1], setKey acc.2.2 p.2.1 p.2.2)
      else acc)
    ([], [], [])

/-- Keyword scoring for one category pattern: weight 1.0 per matching keyword
plus a 0.5 bonus when the keyword also occurs in the product name. -/
def keywordScore (nameL combined : Str) (kws : List Str) : Q :=
  kws.foldl
    (fun sc kw =>
      if containsSub kw combined then
        qadd (qadd sc 1) (if containsSub kw nameL then qd 1 2 else 0)
      else sc) 0

def keywordPass (nameL combined : Str) (scores0 : List (Str × Q)) : List (Str × Q) :=
  categoryPatterns.foldl
    (fun acc p =>
      let sc := keywordScore nameL combined p.2
      if qlt 0 sc then bump acc p.1 sc else acc)
    scores0

/-- Final arg-max over the score map (strict `>` keeps earlier keys on ties),
updating the expected unit from the suggestion map on each improvement. -/
def classifyPick (us : List (Str × Str)) :
    List (Str × Q) → (Option Str × Q × Option Str) → Option Str × Q × Option Str
  | [], acc => acc
  | (cat, sc) :: rest, (hc, hs, eu) =>
      if qlt hs sc then classifyPick us rest (some cat, sc, getKeyS us cat)
      else classifyPick us rest (hc, hs, eu)

def classifyProductType (productName brandName gpcString : Str) : Classification :=
  let nameL := lowerStr productName
  let brandL := lowerStr brandName
  let gpcL := lowerStr gpcString
  let combined := nameL ++ str " " ++ brandL ++ str " " ++ gpcL
  if ctxRule1 combined then
    ctxReturn (str "oil_product") (qd 95 100) (str "volume")
      "This is an automotive oil product based on the context of engine/motor terminology"
  else if ctxRule2 combined then
    ctxReturn (str "oil_product") (qd 98 100) (str "volume")
      "This is an engine oil product based on the viscosity grade pattern (e.g., 0W20, 5W30)"
  else if ctxRule3 combined then
    ctxReturn (str "oil_product") (qd 98 100) (str "volume")
      "This is an engine oil product based on API service category designation"
  else if ctxRule4 combined then
    ctxReturn (str "cleaning_product") (qd 95 100) (str "weight")
      "This is a laundry cleaning product that needs weight units"
  else if ctxRule5 combined then
    ctxReturn (str "food_product") (qd 9 10) (str "volume")
      "This is a cooking oil product that requires volume units"
  else
    let ng := ngramPass combined
    let scores1 := keywordPass nameL combined ng.1
    -- special case: washing-powder detection over the product name alone
    let washHit := containsSub (str "wash") nameL &&
      (containsSub (str "powder") nameL || containsSub (str "detergent") nameL ||
       containsSub (str "soap") nameL)
    let scores2 := if washHit then bump scores1 (str "cleaning_product") 2 else scores1
    let us := if washHit then
        setKey ng.2.2 (str "cleaning_product")
          (if containsSub (str "powder") nameL then str "weight" else str "volume")
      else ng.2.2
    let picked := classifyPick us scores2 (none, 0, none)
    { category := picked.1
      confidence := if qlt 0 picked.2.1 then qmin (qmul (qdiv picked.2.1 3) 100) 100 else 0
      scores := scores2
      expectedUnit := picked.2.2
      explanation := none
      detectionMethod := if ng.2.1.length > 0 then str "n-gram" else str "keyword"
      ngramMatches := some ng.2.1 }

example :
    (classifyProductType (str "PROMAX SP 0W16") (str "SAMA OIL")
      (str "type of engine oil target")).category = some (str "oil_product") := by decide
example :
    qeqb (classifyProductType (str "PROMAX SP 0W16") (str "SAMA OIL")
      (str "type of engine oil target")).confidence 95 = true := by decide

/-! ## `parseGPC` and `parseUnit` (productController.js, lines 415–482) -/

structure ParsedGPC where
  code : Option Str
  description : Option Str
deriving DecidableEq, Repr

def parseGPC (gpcString : Str) : ParsedGPC :=
  if gpcString.isEmpty then { code := none, description := none }
  else if containsSub (str "-") gpcString then
    let parts := splitOnPred (· = '-') gpcString
    { code := some (trimStr (parts.headD []))
      description := some (trimStr (joinWith (str "-") parts.tail)) }
  else if (match gpcString with | c :: _ => isDigitChar c | [] => false) then
    let code := gpcString.takeWhile (isDigitChar ·)
    let desc := trimStr (gpcString.drop code.length)
    { code := some code, description := if desc.isEmpty then none else some desc }
  else { code := none, description := some gpcString }

/-- `parseUnit` returns `{id, code, name}` — the object carries **no** `type`
property, so the aggregator's later `parsedUnit.type` access yields
`undefined`; the `type` field below is therefore always `none`. -/
structure ParsedUnit where
  code : Option Str
  name : Option Str
  type : Option Str
deriving DecidableEq, Repr

def parseUnit (unitString : Str) (unitData : Option UnitData) : ParsedUnit :=
  if unitString.isEmpty then { code := none, name := none, type := none }
  else
    let unitCode := trimStr unitString
    let dbName : Option Str :=
      match unitData with
      | some u => if u.unit_name.isEmpty then none else some u.unit_name
      | none => none
    let unitName :=
      match dbName with
      | some n => n
      | none =>
          let lc := lowerStr unitCode
          if lc = str "kg" then str "Kilogram"
          else if lc = str "g" then str "Gram"
          else if lc = str "l" || lc = str "ltr" then str "Liter"
          else if lc = str "ml" then str "Milliliter"
          else if lc = str "pc" || lc = str "ea" then str "Piece"
          else unitCode
    { code := some unitCode, name := some unitName, type := none }

/-- `getRelatedTerms` (lines 52–78): semantic-relationship table probe. -/
def relatedTermsTable : List (Str × List Str) :=
  [(str "food", [str "edible", str "consumable", str "nutrition", str "grocery",
     str "meal", str "snack"]),
   (str "beverage", [str "drink", str "liquid", str "water", str "juice", str "fluid"]),
   (str "electronics", [str "device", str "gadget", str "tech", str "digital",
     str "electronic", str "appliance"]),
   (str "clothing", [str "apparel", str "garment", str "wear", str "fashion", str "textile"]),
   (str "chemical", [str "cleaner", str "solution", str "compound", str "mixture",
     str "solvent"]),
   (str "household", [str "home", str "domestic", str "kitchen", str "bathroom",
     str "living"]),
   (str "beauty", [str "cosmetic", str "makeup", str "skincare", str "personal care"]),
   (str "health", [str "medical", str "wellness", str "medicine", str "healthcare",
     str "pharmacy"]),
   (str "toy", [str "game", str "play", str "entertainment", str "children"])]

def getRelatedTerms (category1 category2 : Str) : List Str :=
  relatedTermsTable.foldl
    (fun acc e =>
      if (containsSub e.1 category1 || e.2.any (fun t => containsSub t category1)) &&
         (containsSub e.1 category2 || e.2.any (fun t => containsSub t category2)) then
        acc ++ [e.1]
      else acc) []

/-! ## `checkGpcUnitCompatibility` (productController.js, lines 491–887)

The compatibility checker: a semantic-vector phase, a keyword-count
fallback, n-gram overrides, industry rules and a unit-code format check, in
that order.  The cosine similarities compare non-negative values, so this
translation carries each similarity as the pair `(dot, ‖a‖²·‖b‖²)` and
compares squares by cross multiplication — exactly equivalent to comparing
the real cosines, with no square roots. -/

def semanticVectors : List (Str × List Q) :=
  [(str "liquid", [qd 8 10, qd 1 10, 0, qd 1 10, 0]),
   (str "oil", [qd 7 10, qd 2 10, 0, qd 1 10, 0]),
   (str "beverage", [qd 7 10, 0, qd 1 10, qd 2 10, 0]),
   (str "drink", [qd 7 10, 0, qd 2 10, qd 1 10, 0]),
   (str "fluid", [qd 9 10, 0, 0, qd 1 10, 0]),
   (str "juice", [qd 6 10, 0, qd 3 10, qd 1 10, 0]),
   (str "water", [qd 8 10, 0, qd 1 10, qd 1 10, 0]),
   (str "milk", [qd 6 10, 0, qd 3 10, qd 1 10, 0]),
   (str "sauce", [qd 6 10, qd 3 10, qd 1 10, 0, 0]),
   (str "syrup", [qd 7 10, qd 2 10, qd 1 10, 0, 0]),
   (str "lubricant", [qd 8 10, qd 1 10, 0, qd 1 10, 0]),
   (str "solvent", [qd 7 10, qd 2 10, 0, qd 1 10, 0]),
   (str "cream", [qd 5 10, qd 3 10, qd 1 10, qd 1 10, 0]),
   (str "fuel", [qd 8 10, qd 1 10, 0, qd 1 10, 0]),
   (str "powder", [qd 1 10, qd 8 10, 0, qd 1 10, 0]),
   (str "solid", [0, qd 9 10, 0, qd 1 10, 0]),
   (str "grain", [0, qd 7 10, qd 2 10, qd 1 10, 0]),
   (str "food", [qd 1 10, qd 5 10, qd 3 10, qd 1 10, 0]),
   (str "flour", [0, qd 8 10, qd 2 10, 0, 0]),
   (str "rice", [0, qd 7 10, qd 3 10, 0, 0]),
   (str "sugar", [0, qd 8 10, qd 2 10, 0, 0]),
   (str "salt", [0, qd 9 10, qd 1 10, 0, 0]),
   (str "cereal", [0, qd 6 10, qd 4 10, 0, 0]),
   (str "coffee", [0, qd 7 10, qd 3 10, 0, 0]),
   (str "spice", [0, qd 8 10, qd 2 10, 0, 0]),
   (str "detergent", [0, qd 7 10, 0, qd 3 10, 0]),
   (str "soap", [0, qd 6 10, 0, qd 4 10, 0]),
   (str "chemical", [qd 2 10, qd 6 10, 0, qd 2 10, 0]),
   (str "device", [0, 0, qd 9 10, qd 1 10, 0]),
   (str "electronic", [0, 0, qd 8 10, qd 2 10, 0]),
   (str "appliance", [0, 0, qd 7 10, qd 3 10, 0]),
   (str "equipment", [0, 0, qd 8 10, qd 2 10, 0]),
   (str "apparatus", [0, 0, qd 7 10, qd 3 10, 0]),
   (str "phone", [0, 0, qd 9 10, qd 1 10, 0]),
   (str "computer", [0, 0, qd 9 10, qd 1 10, 0]),
   (str "machine", [0, 0, qd 8 10, qd 2 10, 0]),
   (str "tool", [0, 0, qd 7 10, qd 3 10, 0]),
   (str "furniture", [0, 0, qd 9 10, qd 1 10, 0]),
   (str "toy", [0, 0, qd 9 10, qd 1 10, 0]),
   (str "game", [0, 0, qd 8 10, qd 2 10, 0]),
   (str "clothing", [0, 0, qd 9 10, qd 1 10, 0]),
   (str "garment", [0, 0, qd 9 10, qd 1 10, 0]),
   (str "shoe", [0, 0, qd 9 10, qd 1 10, 0]),
   (str "accessory", [0, 0, qd 8 10, qd 2 10, 0]),
   (str "fabric", [0, qd 1 10, qd 1 10, 0, qd 8 10]),
   (str "textile", [0, qd 1 10, qd 1 10, 0, qd 8 10]),
   (str "cloth", [0, qd 1 10, qd 1 10, 0, qd 8 10]),
   (str "cable", [0, 0, qd 2 10, 0, qd 8 10]),
   (str "wire", [0, 0, qd 2 10, 0, qd 8 10]),
   (str "rope", [0, qd 1 10, qd 1 10, 0, qd 8 10]),
   (str "thread", [0, qd 1 10, 0, 0, qd 9 10]),
   (str "yarn", [0, qd 1 10, 0, 0, qd 9 10]),
   (str "ribbon", [0, qd 1 10, 0, 0, qd 9 10])]

def unitDomainVectors : List (Str × List Q) :=
  [(str "volume", [qd 9 10, 0, 0, qd 1 10, 0]),
   (str "weight", [0, qd 9 10, 0, qd 1 10, 0]),
   (str "quantity", [0, 0, qd 9 10, qd 1 10, 0]),
   (str "length", [0, 0, 0, qd 1 10, qd 9 10]),
   (str "area", [0, 0, 0, qd 9 10, qd 1 10])]

def qdot (a b : List Q) : Q := (List.zipWith qmul a b).foldl qadd 0

def qnormSq (a : List Q) : Q := qdot a a

/-- Average of the semantic vectors of the recognised words of `text`
(`getAverageVector`); the balanced default when no word is recognised.
`text.split(/\s+/)` is modelled by a single-character whitespace split: the
extra empty pieces that produces are not vocabulary words and so do not
change the sum or the count. -/
def getAverageVector (text : Str) : List Q :=
  let words := splitOnPred (isSpaceChar ·) text
  let step := words.foldl
    (fun (acc : List Q × Nat) w =>
      match (semanticVectors.find? (fun e => e.1 == w)).map (·.2) with
      | some v => (List.zipWith qadd acc.1 v, acc.2 + 1)
      | none => acc)
    ([0, 0, 0, 0, 0], 0)
  if step.2 = 0 then [qd 2 10, qd 2 10, qd 2 10, qd 2 10, qd 2 10]
  else step.1.map (fun x => qdiv x (qi step.2))

/-- A cosine similarity, carried as `(dot, ‖a‖²·‖b‖²)`; its value is
`dot / √den` with `dot ≥ 0` and `den > 0` for all vectors occurring here. -/
structure SimVal where
  dot : Q
  den : Q
deriving DecidableEq, Repr

def simOf (a b : List Q) : SimVal := ⟨qdot a b, qmul (qnormSq a) (qnormSq b)⟩

/-- `a > b` for two non-negative similarities. -/
def simGtSim (a b : SimVal) : Bool :=
  qlt (qmul (qmul b.dot b.dot) a.den) (qmul (qmul a.dot a.dot) b.den)

/-- `a > θ` for a non-negative similarity and a non-negative constant. -/
def simGtQ (a : SimVal) (θ : Q) : Bool :=
  qlt (qmul (qmul θ θ) a.den) (qmul a.dot a.dot)

/-- The JS variable `highestConfidence`: either an exact number or a
vector-phase cosine similarity. -/
inductive Conf
  | rat (q : Q)
  | sim (s : SimVal)
deriving DecidableEq, Repr

def confGtQ : Conf → Q → Bool
  | .rat q, θ => qlt θ q
  | .sim s, θ => simGtQ s θ

def confLtQ : Conf → Q → Bool
  | .rat q, θ => qlt q θ
  | .sim s, θ => qlt (qmul s.dot s.dot) (qmul (qmul θ θ) s.den)

def qGtConf (q : Q) : Conf → Bool
  | .rat r => qlt r q
  | .sim s => qlt (qmul s.dot s.dot) (qmul (qmul q q) s.den)

/-- `Math.round(conf * 100)`.  For a similarity `dot/√den` this uses
`⌊2·x⌋ = Nat.sqrt ⌊4·x²⌋` (valid for `x ≥ 0`) and
`round(x) = ⌊(⌊2x⌋ + 1) / 2⌋`. -/
def confRound100 : Conf → Int
  | .rat q => jsRound (qmul q 100)
  | .sim s =>
      let m := Nat.sqrt (Int.toNat (qfloor (qdiv (qmul (qmul s.dot s.dot) 40000) s.den)))
      ((m + 1) / 2 : Nat)

structure CategoryUnitInfo where
  name : Str
  expectedType : Str
  keywords : List Str
  recommendedUnits : List Str
deriving DecidableEq, Repr

def categoryUnitMap : List CategoryUnitInfo :=
  [⟨str "liquid", str "volume",
    [str "liquid", str "oil", str "beverage", str "drink", str "fluid", str "juice",
     str "water", str "milk", str "sauce", str "syrup", str "lubricant", str "solvent",
     str "cream", str "fuel"],
    [str "L", str "ML", str "CL", str "LTR", str "LITER", str "GAL", str "OZ", str "FLOZ"]⟩,
   ⟨str "solid", str "weight",
    [str "powder", str "solid", str "grain", str "food", str "flour", str "rice",
     str "sugar", str "salt", str "cereal", str "coffee", str "spice", str "detergent",
     str "soap", str "chemical"],
    [str "KG", str "G", str "MG", str "LB", str "OZ", str "TON"]⟩,
   ⟨str "item", str "quantity",
    [str "device", str "electronic", str "appliance", str "equipment", str "apparatus",
     str "phone", str "computer", str "machine", str "tool", str "furniture", str "toy",
     str "game", str "clothing", str "garment", str "shoe", str "accessory"],
    [str "PC", str "EA", str "UNIT", str "SET", str "PAIR", str "PCS", str "EACH"]⟩,
   ⟨str "length", str "length",
    [str "fabric", str "textile", str "cloth", str "cable", str "wire", str "rope",
     str "thread", str "yarn", str "ribbon"],
    [str "M", str "CM", str "MM", str "FT", str "IN", str "YD"]⟩,
   ⟨str "area", str "area",
    [str "carpet", str "rug", str "tile", str "panel", str "board", str "sheet",
     str "field", str "land"],
    [str "M2", str "SQM", str "SQFT", str "ACRE", str "HA"]⟩]

def capFirst : Str → Str
  | [] => []
  | c :: r => Char.toUpper c :: r

def domainToCategory (d : Str) : Str :=
  if d = str "volume" then str "liquid"
  else if d = str "weight" then str "solid"
  else if d = str "quantity" then str "item"
  else if d = str "length" then str "length"
  else str "area"

/-- Compat-checker n-gram override 1: `/(washing|detergent|laundry)\s+(powder|granules)/i`. -/
def compatNgramWashing (s : Str) : Bool :=
  adjScan [str "washing", str "detergent", str "laundry"] [str "powder", str "granules"] s

/-- Compat-checker n-gram override 2: `/(engine|motor|transmission|hydraulic)\s+oil/i`. -/
def compatNgramEngineOil (s : Str) : Bool :=
  adjScan [str "engine", str "motor", str "transmission", str "hydraulic"] [str "oil"] s

/-- Compat-checker n-gram override 3: `/liquid\s+(soap|detergent|cleaner)/i`. -/
def compatNgramLiquidSoap (s : Str) : Bool :=
  adjScan [str "liquid"] [str "soap", str "detergent", str "cleaner"] s

/-- Industry rule 1 condition (automotive oils). -/
def indAutomotive (s : Str) : Bool :=
  hasWordPair [str "engine", str "motor", str "automotive", str "car", str "vehicle"]
    [str "oil", str "lubricant", str "fluid"] s ||
  hasApiLetters s || hasViscosityToken s

/-- Industry rule 2 condition (rate/length/area prohibition for oils). -/
def indOilWords (s : Str) : Bool :=
  hasWord [str "engine", str "motor", str "oil", str "lubricant", str "fluid"] s ||
  hasViscosityToken s || hasApiS s

/-- Industry rule 3 condition (washing powders). -/
def indWashingPowder (s : Str) : Bool :=
  hasWordPair [str "washing", str "laundry", str "detergent"] [str "powder", str "granule"] s

/-- Industry rule 4 condition (beverages). -/
def indBeverage (s : Str) : Bool :=
  hasWord [str "drink", str "beverage", str "water", str "juice", str "soda", str "milk",
    str "coffee", str "tea"] s

/-- Industry rule 5 condition (electronics). -/
def indElectronics (s : Str) : Bool :=
  hasWord [str "electronics", str "device", str "gadget", str "phone", str "computer",
    str "laptop", str "tablet"] s

/-- Industry rule 6 condition (clothing). -/
def indClothing (s : Str) : Bool :=
  hasWord [str "clothing", str "garment", str "apparel", str "wear", str "fashion",
    str "dress", str "shirt", str "pant"] s

/-- The unit-code format whitelists (`unitValidationPatterns`), full-match. -/
def volumeUnitCodes : List Str :=
  [str "l", str "ltr", str "ml", str "cl", str "oz", str "gal", str "floz", str "liter"]

def weightUnitCodes : List Str :=
  [str "kg", str "g", str "mg", str "lb", str "oz", str "ton"]

def quantityUnitCodes : List Str :=
  [str "pc", str "ea", str "pcs", str "unit", str "set", str "pair", str "each"]

def lengthUnitCodes : List Str :=
  [str "m", str "cm", str "mm", str "ft", str "in", str "yd"]

def areaUnitCodes : List Str :=
  [str "m2", str "sqm", str "sqft", str "ha", str "acre"]

def unitValidationPatterns : List (Str × List Str) :=
  [(str "volume", volumeUnitCodes), (str "weight", weightUnitCodes),
   (str "quantity", quantityUnitCodes), (str "length", lengthUnitCodes),
   (str "area", areaUnitCodes)]

/-- `unitValidationPatterns[t].toString().replace(/[\^\$\/]/g, '').split('|')` —
the (mangled) recommended-units lists of the unit-format branch, reproduced
value-for-value. -/
def unitFormatRecommended (t : Str) : List Str :=
  if t = str "volume" then
    [str "(l", str "ltr", str "ml", str "cl", str "oz", str "gal", str "floz", str "liter)i"]
  else if t = str "weight" then
    [str "(kg", str "g", str "mg", str "lb", str "oz", str "ton)i"]
  else if t = str "quantity" then
    [str "(pc", str "ea", str "pcs", str "unit", str "set", str "pair", str "each)i"]
  else if t = str "length" then
    [str "(m", str "cm", str "mm", str "ft", str "in", str "yd)i"]
  else
    [str "(m2", str "sqm", str "sqft", str "ha", str "acre)i"]

structure CompatResult where
  compatible : Bool
  reason : Option Str
  recommendedUnits : List Str
  confidence : Option Int
  detectionMethod : Option Str
deriving DecidableEq, Repr

def compatTrue : CompatResult :=
  { compatible := true, reason := none, recommendedUnits := [],
    confidence := none, detectionMethod := none }

def junkCategoryInfo : CategoryUnitInfo := ⟨[], [], [], []⟩

/-- The checker's inline code/description split: everything after the first
`-`, or the whole (lower-cased) string when there is none. -/
def gpcDescOf (gpcLower : Str) : Str :=
  if containsSub (str "-") gpcLower then
    trimStr (joinWith (str "-") (splitOnPred (· = '-') gpcLower).tail)
  else gpcLower

/-- Step 5 of the compatibility checker: category/dimension mismatch from the
detected `(category, confidence, method)` state. JavaScript `!==` on strings
is the boolean `!(· == ·)`. -/
def compatStep5 (st2 : Option Str × Conf × Str)
    (gpcDescription unitCode ut : Str) : Option CompatResult :=
  match st2.1 with
  | some cat =>
      if confGtQ st2.2.1 (qd 6 10) then
        let cd := ((categoryUnitMap.find? (fun c => c.name == cat)).getD junkCategoryInfo)
        if !(ut == cd.expectedType) then
          some { compatible := false
                 reason := some (str "GPC indicates a " ++ cat ++ str " product (" ++
                   gpcDescription ++ str ") but unit is " ++ ut ++ str " (" ++ unitCode ++
                   str "). " ++ capFirst cat ++ str " products should use " ++
                   cd.expectedType ++ str " units like " ++
                   joinWith (str ", ") (cd.recommendedUnits.take 3) ++ str ".")
                 recommendedUnits := cd.recommendedUnits
                 confidence := some (confRound100 st2.2.1)
                 detectionMethod := some st2.2.2 }
        else none
      else none
  | none => none

/-- The industry-specific rules of the compatibility checker, tried in order;
a rule whose condition holds without a violation falls through to the next. -/
def compatIndustry (gpcDescription unitCode ut : Str) : Option CompatResult :=
  let indMismatch (cond : Bool) (reqType : Str) (msg : String) (rec : List Str) :
      Option CompatResult :=
    if cond && !(ut == reqType) then
      some { compatible := false
             reason := some (str msg ++ str " like " ++ joinWith (str ", ") rec ++
               str ", but unit is " ++ ut ++ str " (" ++ unitCode ++ str ").")
             recommendedUnits := rec
             confidence := some 95
             detectionMethod := some (str "industry-rule") }
    else none
  let ind1 := indMismatch (indAutomotive gpcDescription) (str "volume")
    "Automotive oil products must use volume units" [str "L", str "ML", str "LTR"]
  let ind2 : Option CompatResult :=
    if indOilWords gpcDescription &&
       ([str "rate", str "length", str "area"].any (fun t => t == ut)) then
      some { compatible := false
             reason := some (str "Engine oil products cannot use rate/speed or length units - they must use volume units" ++
               str ". Current unit (" ++ unitCode ++ str ") is a " ++ ut ++
               str " unit which is not appropriate.")
             recommendedUnits := [str "L", str "ML", str "LTR", str "LITER"]
             confidence := some 98
             detectionMethod := some (str "prohibited-unit-type") }
    else none
  let ind3 := indMismatch (indWashingPowder gpcDescription) (str "weight")
    "Washing/detergent powder products must use weight units" [str "KG", str "G"]
  let ind4 := indMismatch (indBeverage gpcDescription) (str "volume")
    "Beverage products must use volume units" [str "L", str "ML", str "FL OZ"]
  let ind5 := indMismatch (indElectronics gpcDescription) (str "quantity")
    "Electronic products must use quantity units" [str "PC", str "EA", str "UNIT"]
  let ind6 := indMismatch (indClothing gpcDescription) (str "quantity")
    "Clothing products must use quantity units" [str "PC", str "EA", str "PAIR"]
  ind1 <|> ind2 <|> ind3 <|> ind4 <|> ind5 <|> ind6

/-- The unit-code format validation of the compatibility checker. -/
def compatFormat (unitCode unitLower ut : Str) : CompatResult :=
  match (unitValidationPatterns.find? (fun e => e.1 == ut)).map (fun e => e.2) with
  | some pat =>
      if !(pat.any (fun u => u == unitLower)) then
        let validUnits := (unitValidationPatterns.filter
          (fun e => e.2.any (fun u => u == unitLower))).map (fun e => e.1)
        match validUnits with
        | v :: _ =>
            { compatible := false
              reason := some (str "The unit code '" ++ unitCode ++
                str "' appears to be a " ++ v ++ str " unit but is being used as a " ++
                ut ++ str " unit. Please use appropriate " ++ ut ++ str " units.")
              recommendedUnits := unitFormatRecommended ut
              confidence := some 85
              detectionMethod := some (str "unit-format") }
        | [] => compatTrue
      else compatTrue
  | none => compatTrue

/-- The decision tail of the compatibility checker, from the detected state
onwards: step 5, then the industry rules, then the format validation. -/
def compatDecide (st2 : Option Str × Conf × Str)
    (gpcDescription unitCode unitLower ut : Str) : CompatResult :=
  match compatStep5 st2 gpcDescription unitCode ut with
  | some r => r
  | none =>
    match compatIndustry gpcDescription unitCode ut with
    | some r => r
    | none => compatFormat unitCode unitLower ut

def checkGpcUnitCompatibility (gpcString unitCode unitType : Str) : CompatResult :=
  if gpcString.isEmpty || unitCode.isEmpty then compatTrue
  else
    let ut := if unitType.isEmpty then str "unknown" else unitType
    let unitLower := lowerStr unitCode
    let gpcDescription := gpcDescOf (lowerStr gpcString)
    -- vector phase: arg-max of cosine similarity over the five unit domains
    -- (the `-1` sentinel is modelled by accepting the first, non-negative,
    -- similarity unconditionally)
    let gpcVector := getAverageVector gpcDescription
    let pick := unitDomainVectors.foldl
      (fun (acc : Option (Str × SimVal)) e =>
        let s := simOf gpcVector e.2
        match acc with
        | none => some (e.1, s)
        | some (d0, s0) => if simGtSim s s0 then some (e.1, s) else some (d0, s0))
      none
    let st0 : Option Str × Conf × Str :=
      match pick with
      | some (dom, s) =>
          if simGtQ s (qd 1 2) then (some (domainToCategory dom), Conf.sim s, str "vector")
          else (none, Conf.rat 0, str "keyword")
      | none => (none, Conf.rat 0, str "keyword")
    -- keyword fallback when the vector similarity is low
    let st1 : Option Str × Conf × Str :=
      if st0.1.isNone || confLtQ st0.2.1 (qd 6 10) then
        categoryUnitMap.foldl
          (fun acc cinfo =>
            let matchCount := cinfo.keywords.countP (fun k => containsSub k gpcDescription)
            let mc := qdiv (qi matchCount) (qi cinfo.keywords.length)
            if qGtConf mc acc.2.1 then (some cinfo.name, Conf.rat mc, str "keyword") else acc)
          st0
      else st0
    -- n-gram overrides, first match wins
    let st2 : Option Str × Conf × Str :=
      if compatNgramWashing gpcDescription then
        (some (str "solid"), Conf.rat (qd 95 100), str "n-gram")
      else if compatNgramEngineOil gpcDescription then
        (some (str "liquid"), Conf.rat (qd 95 100), str "n-gram")
      else if compatNgramLiquidSoap gpcDescription then
        (some (str "liquid"), Conf.rat (qd 95 100), str "n-gram")
      else st1
    compatDecide st2 gpcDescription unitCode unitLower ut

example : (checkGpcUnitCompatibility (str "engine oil") (str "KG") (str "weight")).compatible
    = false := by decide
example : (checkGpcUnitCompatibility (str "engine oil") (str "L") (str "volume")).compatible
    = true := by decide
example : (checkGpcUnitCompatibility (str "engine oil") (str "LB") (str "volume")).compatible
    = false := by decide
example : (checkGpcUnitCompatibility (str "engine oil-stuff") (str "KG") (str "weight")).compatible
    = true := by decide

/-! ## `analyzeProductImage` (productController.js, lines 902–1331)

Filename-heuristic image consistency analysis.  The translation keeps the
fields every claim touches (`isValid`, `confidence`, `semanticScore`,
`contentConsistency`, `issues`); the purely diagnostic metadata payloads
(`detectedFeatures`, `detectedCategories`, `analysisMetadata`, the per-issue
`analysis` objects and the always-empty `suggestions` array) are not
modelled — nothing downstream reads them except response serialisation. -/

structure ImgIssue where
  type : Str
  severity : Str
  confidence : Q
  message : Str
  suggestion : Option Str
deriving DecidableEq, Repr

structure ImageAnalysisResult where
  isValid : Bool
  confidence : Q
  semanticScore : Q
  contentConsistency : Str
  issues : List ImgIssue
deriving DecidableEq, Repr

structure ContentPattern where
  name : Str
  keywords : List Str
  description : Str
deriving DecidableEq, Repr

def unrelatedContentPatterns : List ContentPattern :=
  [⟨str "animal",
    [str "animal", str "dog", str "cat", str "bird", str "pet", str "wildlife",
     str "lion", str "tiger", str "bear", str "elephant", str "horse"],
    str "Animal or wildlife imagery"⟩,
   ⟨str "person",
    [str "person", str "people", str "human", str "man", str "woman", str "child",
     str "baby", str "portrait", str "face", str "selfie"],
    str "Human portrait or people imagery"⟩,
   ⟨str "landscape",
    [str "landscape", str "mountain", str "beach", str "ocean", str "sea", str "lake",
     str "forest", str "nature", str "outdoor", str "sky", str "sunset"],
    str "Natural landscape imagery"⟩,
   ⟨str "building",
    [str "building", str "house", str "architecture", str "city", str "urban",
     str "construction", str "office", str "tower", str "apartment"],
    str "Buildings or architectural imagery"⟩,
   ⟨str "vehicle",
    [str "vehicle", str "car", str "truck", str "motorcycle", str "bike", str "bicycle",
     str "auto", str "automotive", str "transport"],
    str "Vehicle imagery"⟩,
   ⟨str "abstract",
    [str "abstract", str "pattern", str "texture", str "art", str "design",
     str "illustration", str "graphic"],
    str "Abstract art or pattern imagery"⟩,
   ⟨str "technology",
    [str "technology", str "computer", str "laptop", str "phone", str "device",
     str "electronic", str "digital", str "screen", str "tech"],
    str "Technology or device imagery"⟩]

structure ImgCategoryPattern where
  name : Str
  keywords : List Str
  expectedFeatures : List Str
  validUnits : List Str
  imagePatterns : List Str
  visualSignatures : List Str
  incompatibleContent : List Str
  description : Str
deriving DecidableEq, Repr

def imageValidationPatterns : List ImgCategoryPattern :=
  [⟨str "oil_products",
    [str "oil", str "lubricant", str "fluid", str "liquid", str "engine", str "motor",
     str "petroleum", str "synthetic"],
    [str "bottle", str "container", str "can", str "jug", str "drum", str "packaging"],
    [str "L", str "ML", str "LITER", str "GAL", str "FLOZ", str "QT"],
    [str "bottle", str "container", str "packaging", str "oil", str "lubricant", str "motor"],
    [str "glossy liquid", str "amber color", str "yellow", str "golden", str "brown"],
    [str "animal", str "person", str "landscape", str "building", str "abstract"],
    str "Automotive or industrial oils and lubricants"⟩,
   ⟨str "cleaning_products",
    [str "detergent", str "cleaner", str "soap", str "washing", str "bleach",
     str "disinfectant", str "sanitizer"],
    [str "bottle", str "box", str "package", str "spray", str "container", str "jug",
     str "pouch"],
    [str "KG", str "G", str "L", str "ML", str "OZ", str "LB"],
    [str "bottle", str "box", str "container", str "cleaner", str "soap", str "detergent"],
    [str "spray bottle", str "plastic container", str "powder", str "liquid soap"],
    [str "animal", str "person", str "landscape", str "vehicle", str "abstract"],
    str "Household or industrial cleaning products"⟩,
   ⟨str "food_products",
    [str "food", str "snack", str "meal", str "nutrition", str "edible", str "grocery",
     str "consumable", str "ingredient"],
    [str "package", str "box", str "bag", str "container", str "wrapper", str "pouch",
     str "jar", str "can"],
    [str "KG", str "G", str "MG", str "ML", str "L", str "OZ", str "LB"],
    [str "package", str "container", str "food", str "edible", str "snack", str "meal"],
    [str "food product", str "edible content", str "packaging with food images"],
    [str "vehicle", str "building", str "technology"],
    str "Edible food products and ingredients"⟩,
   ⟨str "beverages",
    [str "drink", str "beverage", str "water", str "juice", str "soda", str "milk",
     str "coffee", str "tea"],
    [str "bottle", str "can", str "container", str "pack", str "carton", str "glass",
     str "cup"],
    [str "L", str "ML", str "CL", str "FL OZ", str "GAL", str "OZ"],
    [str "bottle", str "can", str "container", str "drink", str "beverage", str "liquid"],
    [str "transparent bottle", str "colorful liquid", str "drinking container"],
    [str "vehicle", str "building", str "technology"],
    str "Drinkable liquid products"⟩,
   ⟨str "electronics",
    [str "device", str "gadget", str "electronic", str "digital", str "tech",
     str "appliance", str "computer"],
    [str "box", str "device", str "product", str "packaging", str "electronics",
     str "hardware"],
    [str "PC", str "UNIT", str "SET", str "PIECE", str "EA", str "EACH"],
    [str "device", str "box", str "product", str "electronic", str "digital", str "tech"],
    [str "electronic device", str "circuit board", str "screen", str "control panel"],
    [str "animal", str "landscape"],
    str "Electronic devices and gadgets"⟩,
   ⟨str "personal_care",
    [str "cosmetic", str "beauty", str "makeup", str "skin", str "hair", str "care",
     str "personal", str "hygiene"],
    [str "bottle", str "tube", str "jar", str "container", str "packaging",
     str "beauty product"],
    [str "G", str "ML", str "OZ", str "FL OZ", str "PIECE"],
    [str "cosmetic", str "beauty", str "personal", str "care", str "hygiene", str "makeup"],
    [str "cream jar", str "beauty product", str "cosmetic packaging"],
    [str "vehicle", str "building", str "technology"],
    str "Personal care and beauty products"⟩,
   ⟨str "clothing",
    [str "apparel", str "clothing", str "wear", str "garment", str "fashion",
     str "textile", str "fabric"],
    [str "garment", str "clothing", str "apparel", str "fabric", str "textile",
     str "fashion item"],
    [str "PC", str "PIECE", str "SET", str "PAIR", str "EA", str "EACH"],
    [str "clothing", str "apparel", str "garment", str "fashion", str "wear"],
    [str "fabric texture", str "clothing item", str "folded garment", str "hanger"],
    [str "vehicle", str "building", str "technology"],
    str "Clothing and apparel items"⟩]

def junkImgCategory : ImgCategoryPattern := ⟨[], [], [], [], [], [], [], []⟩

/-- Metadata match score of a category: 1.5 per keyword occurring in the GPC
text, 1.0 per keyword occurring in the product name. -/
def metaScoreOf (p : ImgCategoryPattern) (gpcL nameL : Str) : Q :=
  p.keywords.foldl
    (fun sc kw =>
      qadd sc (qadd (if containsSub kw gpcL then qd 3 2 else 0)
                    (if containsSub kw nameL then 1 else 0))) 0

/-- `detectedCategoryFromMetadata`: strict arg-max, first category wins ties. -/
def detectedCategoryFromMetadata (gpcL nameL : Str) : Option ImgCategoryPattern × Q :=
  imageValidationPatterns.foldl
    (fun acc p =>
      let s := metaScoreOf p gpcL nameL
      if qlt acc.2 s then (some p, s) else acc)
    (none, 0)

/-- Filename content score of an unrelated-content pattern: 1.5 per keyword
that is literally one of the filename components plus 0.5 per keyword that is
a substring of the whole base name. -/
def contentScoreOf (p : ContentPattern) (comps : List Str) (nameNoExt : Str) : Q :=
  p.keywords.foldl
    (fun sc kw =>
      qadd sc (qadd (if comps.any (fun c => c == kw) then qd 3 2 else 0)
                    (if containsSub kw nameNoExt then qd 1 2 else 0))) 0

/-- The content categories with positive score, in table order, with scores. -/
def possibleContentCats (comps : List Str) (nameNoExt : Str) :
    List (ContentPattern × Q) :=
  unrelatedContentPatterns.foldl
    (fun acc p =>
      let s := contentScoreOf p comps nameNoExt
      if qlt 0 s then acc ++ [(p, s)] else acc) []

/-- Expected-feature / image-pattern / visual-signature match score of the
implied category against the base filename. -/
def imageCategoryScoreOf (p : ImgCategoryPattern) (nameNoExt : Str) : Q :=
  let featureScore := p.expectedFeatures.foldl
    (fun sc f => qadd sc (if containsSub f nameNoExt then 1 else 0)) 0
  let patternScore := p.imagePatterns.foldl
    (fun sc f => qadd sc (if containsSub f nameNoExt then 1 else 0)) 0
  let signatureScore := p.visualSignatures.foldl
    (fun sc sig =>
      qadd sc
        (if (splitOnPred (· = ' ') sig).all (fun part => containsSub part nameNoExt)
         then qd 3 2 else 0)) 0
  qadd (qadd featureScore patternScore) signatureScore

/-- `reduce`: the content type with the strictly highest score (first on ties). -/
def highestScoringContent (l : List (ContentPattern × Q)) (h : ContentPattern × Q) :
    ContentPattern × Q :=
  l.foldl (fun best cur => if qlt best.2 cur.2 then cur else best) h

def replCat (s : Str) : Str := replaceFirst (str "_") (str " ") s

def ctmIssue (cat : ImgCategoryPattern) (top : ContentPattern × Q) : ImgIssue :=
  { type := str "content_type_mismatch"
    severity := str "critical"
    confidence := qmin 95 (qmul top.2 20)
    message := str "Image appears to contain " ++ top.1.description ++
      str " which is inconsistent with " ++ replCat cat.name ++ str " products"
    suggestion := some (str "Upload an image that clearly shows the " ++ cat.description ++
      str " with visible " ++ joinWith (str ", ") (cat.expectedFeatures.take 3)) }

def ambiguousIssue (cat : ImgCategoryPattern) : ImgIssue :=
  { type := str "ambiguous_image_content"
    severity := str "warning"
    confidence := 70
    message := str "Image filename doesn't clearly indicate " ++ replCat cat.name ++
      str " product content"
    suggestion := some (str "Ensure image clearly shows the product with visible " ++
      joinWith (str ", ") (cat.expectedFeatures.take 3)) }

def undeterminedIssue (cat : ImgCategoryPattern) : ImgIssue :=
  { type := str "undetermined_image_content"
    severity := str "info"
    confidence := 50
    message := str "Image filename doesn't provide clear indicators of product content"
    suggestion := some (str "Rename image to include descriptive terms related to your " ++
      cat.description) }

def unitMismatchIssue (unit : Str) (cat : ImgCategoryPattern) : ImgIssue :=
  { type := str "unit_mismatch"
    severity := str "high"
    confidence := 85
    message := str "Unit " ++ unit ++ str " is not appropriate for " ++ replCat cat.name ++
      str " products"
    suggestion := some (cat.description ++ str " should use one of these units: " ++
      joinWith (str ", ") cat.validUnits) }

def formatIssue (ext : Str) : ImgIssue :=
  { type := str "image_format_warning"
    severity := str "low"
    confidence := 90
    message := str "Image format ." ++ ext ++ str " may not be optimal for product display"
    suggestion := some (str "Consider using industry standard formats like JPG, PNG or WebP for better compatibility and performance") }

def ccmIssue (top : ContentPattern × Q) : ImgIssue :=
  { type := str "content_category_mismatch"
    severity := str "high"
    confidence := 75
    message := str "Image appears to contain " ++ top.1.description ++
      str " which doesn't match product metadata"
    suggestion := some (str "Upload an image that clearly shows the product described in your metadata") }

def insufficientMetadataIssue : ImgIssue :=
  { type := str "insufficient_metadata"
    severity := str "medium"
    confidence := 60
    message := str "Unable to determine product category from available metadata"
    suggestion := some (str "Ensure GPC classification accurately describes your product and image clearly shows the product") }

def invalidUrlIssue : ImgIssue :=
  { type := str "invalid_url"
    severity := str "critical"
    confidence := 100
    message := str "Invalid image URL format"
    suggestion := none }

def severityWeightsTable : List (Str × Q) :=
  [(str "critical", 40), (str "high", 25), (str "medium", 15), (str "low", 5),
   (str "info", 0)]

/-- `severityWeights[issue.severity] || 10` — note that the declared `info`
weight `0` is falsy in JavaScript, so `info` issues actually weigh 10. -/
def severityWeightOf (sev : Str) : Q :=
  jsOrNum ((severityWeightsTable.find? (fun e => e.1 == sev)).map (·.2)) 10

def issuesWeightSum (issues : List ImgIssue) : Q :=
  issues.foldl (fun t i => qadd t (severityWeightOf i.severity)) 0

/-- The content-consistency phase of `analyzeProductImage` when a category
was implied by the metadata: `(contentConsistency, isValid flipped, issues,
semanticScore)`. -/
def imgPhase1 (cat : ImgCategoryPattern) (contentCats : List (ContentPattern × Q))
    (imgScore metaScore : Q) : Str × Bool × List ImgIssue × Q :=
  if qlt 0 imgScore then
    (str "consistent", false, [], qmin 100 (qmul (qadd metaScore imgScore) 10))
  else
    match contentCats with
    | h :: t =>
        let incompat := (h :: t).filter
          (fun e => cat.incompatibleContent.any (fun ic => ic == e.1.name))
        (match incompat with
         | ih :: it =>
             (str "inconsistent", true,
              [ctmIssue cat (highestScoringContent (ih :: it) ih)], 0)
         | [] => (str "ambiguous", false, [ambiguousIssue cat], 0))
    | [] => (str "undetermined", false, [undeterminedIssue cat], 0)

/-- `analyzeProductImage`, branch with a metadata-implied category. -/
def analyzeWithCategory (cat : ImgCategoryPattern) (metaScore : Q)
    (contentCats : List (ContentPattern × Q)) (imgScore : Q)
    (unit unitLower fileExtension : Str) : ImageAnalysisResult :=
  let phase1 := imgPhase1 cat contentCats imgScore metaScore
  let unitBad := !(cat.validUnits.any (fun vu => containsSub (lowerStr vu) unitLower))
  let issues2 := phase1.2.2.1 ++ (if unitBad then [unitMismatchIssue unit cat] else [])
  let fmtBad := !([str "jpg", str "png", str "webp"].any (fun f => f == fileExtension))
  let issues3 := issues2 ++ (if fmtBad then [formatIssue fileExtension] else [])
  { isValid := !(phase1.2.1 || unitBad)
    confidence :=
      if issues3.isEmpty then qmax 70 phase1.2.2.2
      else qmax 0 (qsub 100 (issuesWeightSum issues3))
    semanticScore := phase1.2.2.2
    contentConsistency := phase1.1
    issues := issues3 }

/-- `analyzeProductImage`, branch without a metadata-implied category. -/
def analyzeNoCategory (contentCats : List (ContentPattern × Q)) : ImageAnalysisResult :=
  match contentCats with
  | h :: t =>
      let issues := [ccmIssue (highestScoringContent (h :: t) h)]
      { isValid := false
        confidence := qmax 0 (qsub 100 (issuesWeightSum issues))
        semanticScore := 0
        contentConsistency := str "indeterminate"
        issues := issues }
  | [] =>
      let issues := [insufficientMetadataIssue]
      { isValid := true
        confidence := qmax 0 (qsub 100 (issuesWeightSum issues))
        semanticScore := 0
        contentConsistency := str "unknown"
        issues := issues }

def analyzeProductImage (imageUrl gpc unit productName : Str) : ImageAnalysisResult :=
  let normalizedUrl := imageUrl.map (fun c => if c = '\\' then '/' else c)
  if normalizedUrl.isEmpty then
    { isValid := false, confidence := 0, semanticScore := 0,
      contentConsistency := str "unknown", issues := [invalidUrlIssue] }
  else
    let imagePath := (splitOnPred (· = '/') normalizedUrl).getLastD []
    let imageNameWithoutExt := lowerStr ((splitOnPred (· = '.') imagePath).headD [])
    let imageComponents :=
      splitOnPred (fun c => c = '-' || c = '_' || isSpaceChar c) imageNameWithoutExt
    let fileExtension := lowerStr ((splitOnPred (· = '.') imagePath).getLastD [])
    let meta := detectedCategoryFromMetadata (lowerStr gpc) (lowerStr productName)
    let contentCats := possibleContentCats imageComponents imageNameWithoutExt
    match meta.1 with
    | some cat =>
        analyzeWithCategory cat meta.2 contentCats
          (imageCategoryScoreOf cat imageNameWithoutExt) unit (lowerStr unit) fileExtension
    | none => analyzeNoCategory contentCats

example :
    (analyzeProductImage (str "front-oil-bottle.jpg")
      (str "20002871-Type of Engine Oil Target") (str "LTR")
      (str "PROMAX SP 0W16")).issues = [] := by decide
example :
    qeqb (analyzeProductImage (str "front-oil-bottle.jpg") (str "Motor Oils") (str "L")
      (str "")).confidence 70 = true := by decide
example :
    (analyzeProductImage (str "front-oil-bottle.jpg")
      (str "20002871-Type of Engine Oil Target") (str "PC")
      (str "PROMAX SP 0W16")).issues.map (·.severity) = [str "high"] := by decide
example :
    (analyzeProductImage (str "dog-playing-park.jpg") (str "Motor Oils") (str "L")
      (str "")).issues.map (·.type) = [str "content_type_mismatch"] := by decide

/-! ## The per-product verification pipeline of `getAllProducts`
(productController.js, lines 1504–1922)

Each `RULE` block of the controller becomes one `Verification → Verification`
stage; `verifyProduct` chains them in source order.  The response-only
metadata (`verification.imageAnalysis`, the `nlp_analysis` / `analysisDetails`
payloads inside suggestions) is not modelled.  The suggestion `confidence`
percent strings are: every stringified confidence in these paths is an
integer. -/

structure VIssue where
  rule : Str
  severity : Str
  message : Str
  confidence : Option Q
deriving DecidableEq, Repr

structure VSuggestion where
  field : Str
  suggestion : Str
  importance : Str
  recommendedUnits : List Str
  confidence : Option Str
deriving DecidableEq, Repr

structure Verification where
  isValid : Bool
  verificationScore : Q
  confidenceLevel : Q
  verificationStatus : Str
  issues : List VIssue
  missingFields : List Str
  aiSuggestions : List VSuggestion
deriving DecidableEq, Repr

structure Product where
  productnameenglish : Str
  BrandName : Str
  gpc : Str
  unit : Str
  front_image : Str
deriving DecidableEq, Repr

def initialVerification : Verification :=
  { isValid := true, verificationScore := 100, confidenceLevel := 95,
    verificationStatus := str "verified", issues := [], missingFields := [],
    aiSuggestions := [] }

def checkRequiredImage (p : Product) (v : Verification) : Verification :=
  if p.front_image.isEmpty then
    { v with
      isValid := false
      verificationStatus := str "unverified"
      missingFields := v.missingFields ++ [str "front_image"]
      issues := v.issues ++ [⟨str "Required Image", str "critical",
        str "Product must have a front image", none⟩]
      aiSuggestions := v.aiSuggestions ++ [⟨str "front_image",
        str "Upload a high-quality front image of the product showing the packaging and product details clearly. This is essential for product verification and customer recognition.",
        str "Critical", [], none⟩] }
  else v

def checkRequiredBrand (p : Product) (v : Verification) : Verification :=
  if p.BrandName.isEmpty then
    { v with
      isValid := false
      verificationStatus := str "unverified"
      missingFields := v.missingFields ++ [str "BrandName"]
      issues := v.issues ++ [⟨str "Required Brand", str "critical",
        str "Product must have a brand name", none⟩]
      aiSuggestions := v.aiSuggestions ++ [⟨str "BrandName",
        str "Add the product's official brand name. If this is a private label product, enter your company name as the brand. Ensure the brand name matches what appears on the product packaging.",
        str "Critical", [], none⟩] }
  else v

def checkRequiredGpc (p : Product) (v : Verification) : Verification :=
  if p.gpc.isEmpty then
    { v with
      isValid := false
      verificationStatus := str "unverified"
      missingFields := v.missingFields ++ [str "gpc"]
      issues := v.issues ++ [⟨str "Required GPC", str "critical",
        str "Product must have a Global Product Classification (GPC)", none⟩]
      aiSuggestions := v.aiSuggestions ++ [⟨str "gpc",
        str "Select an appropriate Global Product Classification (GPC) that accurately describes your product category. This classification helps in proper categorization and searchability of your product.",
        str "Critical", [], none⟩] }
  else v

def checkRequiredUnit (p : Product) (v : Verification) : Verification :=
  if p.unit.isEmpty then
    { v with
      isValid := false
      verificationStatus := str "unverified"
      missingFields := v.missingFields ++ [str "unit"]
      issues := v.issues ++ [⟨str "Required Unit", str "critical",
        str "Product must have a unit of measurement", none⟩]
      aiSuggestions := v.aiSuggestions ++ [⟨str "unit",
        str "Specify the appropriate unit of measurement for your product (e.g., kg, liter, piece). The unit should match the physical characteristics of your product.",
        str "Critical", [], none⟩] }
  else v

/-- The `GPC-Unit Compatibility` block (lines 1609–1633).  Its guard reads
`parsedUnit.type`, a property `parseUnit` never sets, so the guard is never
satisfied — the stage is dead code, translated faithfully. -/
def compatStage (p : Product) (parsedUnit : ParsedUnit) (v : Verification) : Verification :=
  match parsedUnit.type with
  | some t =>
      if !p.gpc.isEmpty && !p.unit.isEmpty && !t.isEmpty then
        let cr := checkGpcUnitCompatibility p.gpc p.unit t
        if !cr.compatible then
          { v with
            isValid := false
            verificationStatus := str "unverified"
            issues := v.issues ++ [⟨str "GPC-Unit Compatibility", str "high",
              cr.reason.getD [], none⟩]
            aiSuggestions := v.aiSuggestions ++ [⟨str "unit",
              str "Your product with GPC \"" ++ p.gpc ++
                str "\" requires a different unit of measurement. " ++ cr.reason.getD [],
              str "High", [], none⟩] }
        else v
      else v
  | none => v

/-- The aggregator-local category keyword table of the low-confidence
fallback branch (lines 1664–1673). -/
def aggCategories : List (Str × List Str) :=
  [(str "oil", [str "oil", str "lubricant", str "petroleum", str "liquid", str "fluid",
    str "engine"]),
   (str "food", [str "food", str "edible", str "consumable", str "nutrition",
    str "grocery", str "meal", str "snack"]),
   (str "beverage", [str "drink", str "water", str "juice", str "soda", str "beverage",
    str "liquid"]),
   (str "electronics", [str "device", str "gadget", str "tech", str "digital",
    str "electronic", str "appliance"]),
   (str "clothing", [str "apparel", str "garment", str "wear", str "fashion",
    str "textile", str "cloth"]),
   (str "chemical", [str "cleaner", str "solution", str "compound", str "mixture",
    str "solvent", str "chemical", str "washing powder", str "detergent"]),
   (str "industrial", [str "industrial", str "business", str "machinery",
    str "equipment", str "tool"]),
   (str "automotive", [str "car", str "auto", str "vehicle", str "engine", str "motor"])]

def getFallbackGpcSuggestions (category : Str) : List Str :=
  if category = str "oil_product" then
    [str "Engine Oil/Engine Lubricants", str "Motor Oils", str "Automotive Lubricants",
     str "Vehicle Lubricants"]
  else if category = str "cleaning_product" then
    [str "Laundry Detergents", str "Household Cleaning Products", str "Cleaning Agents"]
  else if category = str "food_product" then
    [str "Food Items", str "Packaged Food", str "Grocery Products"]
  else if category = str "beverage_product" then
    [str "Beverages", str "Drinks", str "Water - Packaged", str "Bottled Drinks"]
  else if category = str "electronic_product" then
    [str "Electronics", str "Electronic Devices", str "Consumer Electronics"]
  else if category = str "clothing_product" then
    [str "Clothing", str "Apparel", str "Garments"]
  else if category = str "personal_care" then
    [str "Personal Care Products", str "Cosmetics", str "Beauty Products"]
  else if category = str "household_product" then
    [str "Household Products", str "Home Goods", str "Domestic Items"]
  else [replCat category ++ str " Products"]

/-- `getDirectGpcSuggestions` (lines 2153–2177): the pre-fetched titles for
the category when any exist, else the static fallback list.  The pre-fetched
table (a database result) is a parameter. -/
def getDirectGpcSuggestions (prefetched : Str → List Str) (category : Str) : List Str :=
  if (prefetched category).isEmpty then getFallbackGpcSuggestions category
  else prefetched category

def recommendedGpcPhrase (dpc : List Str) : Str :=
  if dpc.any (fun c => c == str "oil") then str "lubricants or engine oils"
  else if dpc.any (fun c => c == str "food") then str "food items or consumables"
  else if dpc.any (fun c => c == str "beverage") then str "beverages or drinks"
  else if dpc.any (fun c => c == str "electronics") then str "electronic appliances or devices"
  else if dpc.any (fun c => c == str "chemical") then str "cleaning products or detergents"
  else []

/-- The keyword-overlap fallback branch of RULE 2 (lines 1659–1738). -/
def categoryFallback (p : Product) (productNameLower brandNameLower gpcLower : Str)
    (v : Verification) : Verification :=
  let dpc := (aggCategories.filter (fun e => e.2.any (fun kw =>
    containsSub kw productNameLower || containsSub kw brandNameLower))).map (·.1)
  let dgc := (aggCategories.filter (fun e => e.2.any (fun kw =>
    containsSub kw gpcLower))).map (·.1)
  let hasMatching := dpc.any (fun c =>
    dgc.any (fun g => g == c) || !(getRelatedTerms c (joinWith (str " ") dgc)).isEmpty)
  let isOilProduct := containsSub (str "oil") brandNameLower ||
    containsSub (str "oil") productNameLower
  let isOilGpc := containsSub (str "oil") gpcLower ||
    containsSub (str "engine") gpcLower || containsSub (str "lubricant") gpcLower
  if !dpc.isEmpty && !dgc.isEmpty && !hasMatching then
    if !(isOilProduct && isOilGpc) then
      { v with
        isValid := false
        verificationStatus := str "unverified"
        issues := v.issues ++ [⟨str "Category Match", str "high",
          str "Product category (" ++ joinWith (str ", ") dpc ++
            str ") does not match GPC category (" ++ joinWith (str ", ") dgc ++ str ")",
          none⟩]
        aiSuggestions := v.aiSuggestions ++ [⟨str "gpc",
          str "There appears to be a mismatch between your product category and GPC classification. Based on your product \"" ++
            p.productnameenglish ++ str "\" and brand \"" ++ p.BrandName ++
            str "\", we suggest using a GPC related to " ++ recommendedGpcPhrase dpc ++
            str ". This ensures accurate product categorization and improves searchability.",
          str "High", [], none⟩] }
    else v
  else v

/-- The high-confidence branch of RULE 2 (lines 1739–1822): GPC consistency
then expected-dimension versus actual unit dimension. -/
def categoryAIBranch (p : Product) (unitData : Option UnitData)
    (prefetched : Str → List Str) (cat : Str) (pc : Classification) (gpcLower : Str)
    (v : Verification) : Verification :=
  let gpcConsistent :=
    containsSub (replaceFirst (str "_product") [] cat) gpcLower ||
    containsSub (replCat cat) gpcLower
  let v1 :=
    if !gpcConsistent && qlt 70 pc.confidence then
      let titles := getDirectGpcSuggestions prefetched cat
      { v with
        isValid := false
        verificationStatus := str "unverified"
        issues := v.issues ++ [⟨str "Category Match", str "high",
          str "Product appears to be a " ++ replCat cat ++
            str " but GPC doesn't reflect this category", none⟩]
        aiSuggestions := v.aiSuggestions ++ [⟨str "gpc",
          str "Our AI has identified your product \"" ++ p.productnameenglish ++
            str "\" as a " ++ replCat cat ++
            str ". Please select a GPC classification such as \"" ++
            joinWith (str ", ") (titles.take 3) ++
            str "\" for more accurate categorization. This will improve product discovery and ensure proper classification.",
          str "High", [], some (qToFixed0 pc.confidence ++ str "%")⟩] }
    else v
  match pc.expectedUnit with
  | some eu =>
      (match inferUnitType unitData with
       | some ut =>
           if ut ≠ eu then
             let rec_ : List Str × Str :=
               if eu = str "volume" then
                 ([str "L", str "ML", str "FL OZ"],
                  str "volume units such as liters or milliliters")
               else if eu = str "weight" then
                 ([str "KG", str "G"], str "weight units such as kilograms or grams")
               else if eu = str "quantity" then
                 ([str "PC", str "EA", str "UNIT"],
                  str "quantity units such as piece or each")
               else ([], [])
             { v1 with
               isValid := false
               verificationStatus := str "unverified"
               issues := v1.issues ++ [⟨str "Unit Compatibility", str "high",
                 str "Product category \"" ++ replCat cat ++ str "\" should use " ++
                   eu ++ str " units, but uses " ++ ut ++ str " units", none⟩]
               aiSuggestions := v1.aiSuggestions ++ [⟨str "unit",
                 str "Based on our advanced analysis, your product \"" ++
                   p.productnameenglish ++ str "\" (" ++ replCat cat ++
                   str ") should use " ++ rec_.2 ++ str " instead of " ++ ut ++
                   str " units. Using the proper unit type ensures accurate representation and compliance with industry standards.",
                 str "High", rec_.1, some (qToFixed0 pc.confidence ++ str "%")⟩] }
           else v1
       | none => v1)
  | none => v1

/-- RULE 2 (lines 1636–1823): classification-based category / unit checks. -/
def categoryStage (p : Product) (unitData : Option UnitData) (parsedGPC : ParsedGPC)
    (prefetched : Str → List Str) (v : Verification) : Verification :=
  if !p.BrandName.isEmpty && !p.gpc.isEmpty then
    let productNameLower := lowerStr p.productnameenglish
    let brandNameLower := lowerStr p.BrandName
    let gpcLower := lowerStr p.gpc
    let gpcDescription := match parsedGPC.description with
      | some d => lowerStr d
      | none => []
    let classifyArg := if gpcDescription.isEmpty then p.gpc else gpcDescription
    let pc := classifyProductType p.productnameenglish p.BrandName classifyArg
    match pc.category with
    | some cat =>
        if qlt pc.confidence 50 then
          categoryFallback p productNameLower brandNameLower gpcLower v
        else categoryAIBranch p unitData prefetched cat pc gpcLower v
    | none => categoryFallback p productNameLower brandNameLower gpcLower v
  else v

/-- Lines 1826–1832: generic suggestion for unverified products without one. -/
def genericSuggestionStage (v : Verification) : Verification :=
  if v.verificationStatus = str "unverified" && v.aiSuggestions.isEmpty then
    { v with aiSuggestions := [⟨str "general",
        str "Please review all product information for accuracy and completeness. Ensure all required fields are filled and product details are consistent across all fields.",
        str "Medium", [], none⟩] }
  else v

/-- Lines 1835–1855: industry enhancement tips for valid products. -/
def enhancementStage (p : Product) (v : Verification) : Verification :=
  if !p.productnameenglish.isEmpty then
    let nameL := lowerStr p.productnameenglish
    let v1 :=
      if containsSub (str "oil") nameL && v.isValid then
        { v with aiSuggestions := v.aiSuggestions ++ [⟨str "enhancementTip",
            str "Consider adding technical specifications such as viscosity grade and API certification in the product description to provide more valuable information to potential customers.",
            str "Low", [], none⟩] }
      else v
    if containsSub (str "food") nameL && v1.isValid then
      { v1 with aiSuggestions := v1.aiSuggestions ++ [⟨str "enhancementTip",
          str "Consider adding nutritional information and allergen details in the product description to enhance consumer trust and meet regulatory requirements.",
          str "Low", [], none⟩] }
    else v1
  else v

def imgImportance (sev : Str) : Str :=
  if sev = str "critical" then str "Critical"
  else if sev = str "high" then str "High"
  else if sev = str "medium" then str "Medium"
  else str "Low"

/-- All confidences stringified here are integral, see the section comment. -/
def qIntStr (x : Q) : Str := intToStr (qfloor x)

/-- Lines 1858–1912: the image-analysis stage. -/
def imageStage (p : Product) (v : Verification) : Verification :=
  if !p.front_image.isEmpty then
    let ia := analyzeProductImage p.front_image p.gpc p.unit p.productnameenglish
    if !ia.isValid then
      let v1 :=
        { v with
          isValid := false
          verificationStatus := str "unverified"
          issues := v.issues ++ ia.issues.map (fun i =>
            (⟨str "Image Analysis",
              (if i.severity.isEmpty then
                (if containsSub (str "warning") i.type then str "medium" else str "high")
               else i.severity),
              i.message,
              some (jsOrNum (some i.confidence) ia.confidence)⟩ : VIssue))
          aiSuggestions := v.aiSuggestions ++ ia.issues.map (fun i =>
            (⟨str "front_image",
              (match i.suggestion with | some s => s | none => i.message),
              imgImportance i.severity, [],
              some (qIntStr (jsOrNum (some i.confidence) ia.confidence) ++ str "%")⟩ :
              VSuggestion)) }
      match ia.issues.find? (fun i => i.type == str "content_type_mismatch") with
      | some cm =>
          { v1 with aiSuggestions := v1.aiSuggestions ++ [⟨str "general",
              str "IMPORTANT: Your product appears to have an inappropriate image. " ++
                cm.message ++
                str ". This will cause product verification to fail and may confuse customers.",
              str "Critical", [], some (str "95%")⟩] }
      | none => v1
    else v
  else v

/-- One product's verification, stage by stage in source order. -/
def verifyProduct (p : Product) (unitData : Option UnitData)
    (prefetched : Str → List Str) : Verification :=
  let parsedGPC := parseGPC p.gpc
  let parsedUnit := parseUnit p.unit unitData
  let v1 := checkRequiredImage p initialVerification
  let v2 := checkRequiredBrand p v1
  let v3 := checkRequiredGpc p v2
  let v4 := checkRequiredUnit p v3
  let v5 := compatStage p parsedUnit v4
  let v6 := categoryStage p unitData parsedGPC prefetched v5
  let v7 := genericSuggestionStage v6
  let v8 := enhancementStage p v7
  imageStage p v8

/-- `const unitData = product.unit ? unitLookup[product.unit.trim()] : null`. -/
def verifyWithLookup (p : Product) (unitLookup : Str → Option UnitData)
    (prefetched : Str → List Str) : Verification :=
  verifyProduct p (if p.unit.isEmpty then none else unitLookup (trimStr p.unit)) prefetched

/-- Unit records for the end-to-end scenarios (spec §8): `PC` → Piece,
`LTR` → Liter. -/
def scenarioLookup : Str → Option UnitData := fun c =>
  if c == str "PC" then some ⟨str "PC", str "Piece"⟩
  else if c == str "LTR" then some ⟨str "LTR", str "Liter"⟩
  else none

def scenarioA : Product :=
  ⟨str "PROMAX SP 0W16", str "SAMA OIL", str "20002871-Type of Engine Oil Target",
   str "LTR", str "front-oil-bottle.jpg"⟩

def scenarioB : Product :=
  ⟨str "PROMAX SP 0W16", str "SAMA OIL", str "20002871-Type of Engine Oil Target",
   str "PC", str "front-oil-bottle.jpg"⟩

example : (verifyWithLookup scenarioA scenarioLookup (fun _ => [])).verificationStatus
    = str "verified" := by decide
example : (verifyWithLookup scenarioA scenarioLookup (fun _ => [])).issues = [] := by decide
example : (verifyWithLookup scenarioB scenarioLookup (fun _ => [])).verificationStatus
    = str "unverified" := by decide
example : (verifyWithLookup scenarioB scenarioLookup (fun _ => [])).issues.map
    (fun i => (i.rule, i.severity)) =
    [(str "Unit Compatibility", str "high"), (str "Image Analysis", str "high")] := by decide

/-! ## Clarifai-based image verification (unnamed controller generation,
`verifyClarifaiImage` and its caller inside `getAllProducts`)

`verifyClarifaiImage` wraps one network call to the Clarifai predict API in a
`try`/`catch`.  The success path post-processes the network response (concept
matching and scoring over data this model cannot observe), so the model takes
the whole `try`-block result as an `Except` parameter: `ok v` is the success
return value, `error e` the thrown error, whose handler (lines 1061–1071 of
the source) is translated exactly.  The empty-URL early return precedes the
network call. -/

structure ClarifaiVerification where
  valid : Bool
  message : Str
  error : Option Str
  -- the source key is `matches`, a reserved word here
  conceptMatches : List Str
  score : Option Q
  confidence : Q
  expectedConcepts : Option (List Str)
  detectedConcepts : Option (List Str)
  imageUrl : Option Str
deriving DecidableEq, Repr

def verifyClarifaiImage (imageUrl : Str)
    (outcome : Except Str ClarifaiVerification) : ClarifaiVerification :=
  if imageUrl.isEmpty then
    { valid := false, message := str "Image URL is missing", error := none,
      conceptMatches := [], score := none, confidence := 0, expectedConcepts := none,
      detectedConcepts := none, imageUrl := none }
  else
    match outcome with
    | .ok v => v
    | .error e =>
        { valid := false, message := str "Failed to verify image: " ++ e,
          error := some e, conceptMatches := [], score := none, confidence := 0,
          expectedConcepts := none, detectedConcepts := none,
          imageUrl := some imageUrl }

structure PositivePoint where
  rule : Str
  message : Str
  score : Int
deriving DecidableEq, Repr

structure V5Verification where
  isValid : Bool
  verificationStatus : Str
  issues : List VIssue
  aiSuggestions : List VSuggestion
  clarifai : Option ClarifaiVerification
  positivePoints : List PositivePoint
deriving DecidableEq, Repr

/-- The caller block (`if (product.front_image) { try { … } catch … }`,
lines 2645–2689 of the Clarifai controller generation).  On an invalid
verdict the issue is pushed first; the remediation suggestion then
dereferences `expectedConcepts.slice` and `detectedConcepts.slice`, which on
the catch fallback are absent — the resulting TypeError is swallowed by the
enclosing `catch (clarifaiError)`, so the issue stays recorded and the
suggestion is skipped. -/
def clarifaiStage (front_image productName : Str)
    (outcome : Except Str ClarifaiVerification) (v : V5Verification) : V5Verification :=
  if front_image.isEmpty then v
  else
    let cv := verifyClarifaiImage front_image outcome
    let v1 := { v with clarifai := some cv }
    if !cv.valid then
      let v2 :=
        { v1 with
          isValid := false
          verificationStatus := str "unverified"
          issues := v1.issues ++ [⟨str "Image Content Verification", str "high",
            (if cv.message.isEmpty then str "Image content does not match product description"
             else cv.message), none⟩] }
      match cv.expectedConcepts, cv.detectedConcepts with
      | some ec, some dc =>
          { v2 with aiSuggestions := v2.aiSuggestions ++ [⟨str "front_image",
              str "The product image doesn't clearly show a " ++ productName ++
                str ". Please upload an image that clearly shows the product matching its description. We expected to see " ++
                joinWith (str ", ") (ec.take 5) ++ str " but detected " ++
                joinWith (str ", ") (dc.take 3) ++ str ".",
              str "High", [], none⟩] }
      | _, _ => v2
    else
      { v1 with positivePoints := v1.positivePoints ++ [⟨str "Image Content Verification",
          str "Product image correctly matches the product description",
          (match cv.score with | some s => jsRound (qmul s 100) | none => 0)⟩] }

structure ClarifaiJob where
  front_image : Str
  productName : Str
  outcome : Except Str ClarifaiVerification
  base : V5Verification

/-- A batch is processed by one independent stage application per product
(`Promise.all(products.map(...))` over per-product closures). -/
def clarifaiBatch (jobs : List ClarifaiJob) : List V5Verification :=
  jobs.map (fun j => clarifaiStage j.front_image j.productName j.outcome j.base)

def v5Initial : V5Verification :=
  { isValid := true, verificationStatus := str "verified", issues := [],
    aiSuggestions := [], clarifai := none, positivePoints := [] }

/-! ## Lemma layer -/

theorem prefixAt_append_self (p t : Str) : prefixAt p (p ++ t) = true :=
  prefixAt_iff.mpr ⟨t, rfl⟩

theorem adjScan_of_head {as bs : List Str} {r : Str} (x : Str) (hr : r ≠ [])
    (hh : adjHead as bs r = true) : adjScan as bs (x ++ r) = true := by
  induction x with
  | nil =>
      cases r with
      | nil => exact absurd rfl hr
      | cons c t => simp [adjScan, hh]
  | cons d x' ih =>
      simp only [List.cons_append, adjScan, Bool.or_eq_true]
      exact Or.inr ih

theorem adjHead_engine_oil (y : Str) :
    adjHead [str "engine", str "motor", str "transmission", str "hydraulic"]
      [str "oil"] (str "engine oil" ++ y) = true := by
  unfold adjHead
  apply List.any_eq_true.mpr
  refine ⟨str "engine", by decide, ?_⟩
  have hsplit : str "engine oil" ++ y = str "engine" ++ (str " oil" ++ y) := rfl
  rw [hsplit]
  simp only [Bool.and_eq_true]
  refine ⟨prefixAt_append_self _ _, ?_⟩
  rw [List.drop_left]
  have hcons : str " oil" ++ y = ' ' :: (str "oil" ++ y) := rfl
  rw [hcons]
  simp only [spacesThen, Bool.and_eq_true]
  refine ⟨by decide, ?_⟩
  have hcons2 : str "oil" ++ y = 'o' :: ('i' :: ('l' :: y)) := rfl
  rw [hcons2]
  simp [afterSpaces, prefixAt]

/-- A description containing the literal text `engine oil` matches the
checker's `(engine|motor|transmission|hydraulic)\s+oil` n-gram. -/
theorem compatNgramEngineOil_of_contains {s : Str}
    (h : containsSub (str "engine oil") s = true) : compatNgramEngineOil s = true := by
  rcases containsSub_iff.mp h with ⟨x, y, rfl⟩
  unfold compatNgramEngineOil
  rw [List.append_assoc]
  refine adjScan_of_head x ?_ (adjHead_engine_oil y)
  have hcons : str "engine oil" ++ y = 'e' :: (str "ngine oil" ++ y) := rfl
  rw [hcons]
  exact List.cons_ne_nil _ _

theorem anyTermIn_of_code {terms : List Str} {t nm code : Str} (ht : t ∈ terms)
    (hc : containsSub t code = true) : anyTermIn terms nm code = true := by
  unfold anyTermIn
  exact List.any_eq_true.mpr ⟨t, ht, by simp [hc]⟩

theorem anyTermIn_of_name {terms : List Str} {t nm code : Str} (ht : t ∈ terms)
    (hc : containsSub t nm = true) : anyTermIn terms nm code = true := by
  unfold anyTermIn
  exact List.any_eq_true.mpr ⟨t, ht, by simp [hc]⟩

/-! ### The aggregator invariant

`Pv v` is the inductive invariant each verification stage preserves: the
status mirrors the flag, a valid verification carries no issues at all, and
an invalid one carries at least one critical or high issue. -/

def Pv (v : Verification) : Prop :=
  (v.verificationStatus = str "verified" ↔ v.isValid = true) ∧
  (v.isValid = true → v.issues = []) ∧
  (v.isValid = false → ∃ i ∈ v.issues, i.severity = str "critical" ∨ i.severity = str "high")

theorem Pv_initial : Pv initialVerification := by
  refine ⟨by simp [initialVerification], fun _ => rfl, fun h => ?_⟩
  simp [initialVerification] at h

theorem Pv_flip {v : Verification} (h1 : v.isValid = false)
    (h2 : v.verificationStatus = str "unverified")
    (h3 : ∃ i ∈ v.issues, i.severity = str "critical" ∨ i.severity = str "high") :
    Pv v := by
  refine ⟨?_, ?_, fun _ => h3⟩
  · rw [h2, h1]
    constructor
    · intro hc; exact absurd hc (by decide)
    · intro hc; cases hc
  · intro hv; rw [h1] at hv; cases hv

theorem mem_append_singleton {α : Type} (l : List α) (a : α) : a ∈ l ++ [a] := by
  simp

theorem Pv_requiredImage {p : Product} {v : Verification} (h : Pv v) :
    Pv (checkRequiredImage p v) := by
  unfold checkRequiredImage
  split
  · exact Pv_flip rfl rfl ⟨_, mem_append_singleton _ _, Or.inl rfl⟩
  · exact h

theorem Pv_requiredBrand {p : Product} {v : Verification} (h : Pv v) :
    Pv (checkRequiredBrand p v) := by
  unfold checkRequiredBrand
  split
  · exact Pv_flip rfl rfl ⟨_, mem_append_singleton _ _, Or.inl rfl⟩
  · exact h

theorem Pv_requiredGpc {p : Product} {v : Verification} (h : Pv v) :
    Pv (checkRequiredGpc p v) := by
  unfold checkRequiredGpc
  split
  · exact Pv_flip rfl rfl ⟨_, mem_append_singleton _ _, Or.inl rfl⟩
  · exact h

theorem Pv_requiredUnit {p : Product} {v : Verification} (h : Pv v) :
    Pv (checkRequiredUnit p v) := by
  unfold checkRequiredUnit
  split
  · exact Pv_flip rfl rfl ⟨_, mem_append_singleton _ _, Or.inl rfl⟩
  · exact h

theorem Pv_compatStage {p : Product} {u : ParsedUnit} {v : Verification} (h : Pv v) :
    Pv (compatStage p u v) := by
  unfold compatStage
  split
  · split
    · dsimp only
      split
      · exact Pv_flip rfl rfl ⟨_, mem_append_singleton _ _, Or.inr rfl⟩
      · exact h
    · exact h
  · exact h

theorem Pv_categoryFallback {p : Product} {a b c : Str} {v : Verification} (h : Pv v) :
    Pv (categoryFallback p a b c v) := by
  unfold categoryFallback
  dsimp only
  split
  · split
    · exact Pv_flip rfl rfl ⟨_, mem_append_singleton _ _, Or.inr rfl⟩
    · exact h
  · exact h

theorem Pv_categoryAIBranch {p : Product} {u : Option UnitData}
    {pre : Str → List Str} {cat : Str} {pc : Classification} {g : Str}
    {v : Verification} (h : Pv v) : Pv (categoryAIBranch p u pre cat pc g v) := by
  unfold categoryAIBranch
  dsimp only
  have hv1 : ∀ v1 : Verification, Pv v1 →
      Pv (match pc.expectedUnit with
          | some eu =>
              (match inferUnitType u with
               | some ut =>
                   if ut ≠ eu then
                     let rec_ : List Str × Str :=
                       if eu = str "volume" then
                         ([str "L", str "ML", str "FL OZ"],
                          str "volume units such as liters or milliliters")
                       else if eu = str "weight" then
                         ([str "KG", str "G"], str "weight units such as kilograms or grams")
                       else if eu = str "quantity" then
                         ([str "PC", str "EA", str "UNIT"],
                          str "quantity units such as piece or each")
                       else ([], [])
                     { v1 with
                       isValid := false
                       verificationStatus := str "unverified"
                       issues := v1.issues ++ [⟨str "Unit Compatibility", str "high",
                         str "Product category \"" ++ replCat cat ++ str "\" should use " ++
                           eu ++ str " units, but uses " ++ ut ++ str " units", none⟩]
                       aiSuggestions := v1.aiSuggestions ++ [⟨str "unit",
                         str "Based on our advanced analysis, your product \"" ++
                           p.productnameenglish ++ str "\" (" ++ replCat cat ++
                           str ") should use " ++ rec_.2 ++ str " instead of " ++ ut ++
                           str " units. Using the proper unit type ensures accurate representation and compliance with industry standards.",
                         str "High", rec_.1, some (qToFixed0 pc.confidence ++ str "%")⟩] }
                   else v1
               | none => v1)
          | none => v1) := by
    intro v1 hp
    split
    · split
      · split
        · exact Pv_flip rfl rfl ⟨_, mem_append_singleton _ _, Or.inr rfl⟩
        · exact hp
      · exact hp
    · exact hp
  apply hv1
  split
  · exact Pv_flip rfl rfl ⟨_, mem_append_singleton _ _, Or.inr rfl⟩
  · exact h

theorem Pv_categoryStage {p : Product} {u : Option UnitData} {g : ParsedGPC}
    {pre : Str → List Str} {v : Verification} (h : Pv v) :
    Pv (categoryStage p u g pre v) := by
  unfold categoryStage
  dsimp only
  repeat' split
  all_goals first
    | exact Pv_categoryFallback h
    | exact Pv_categoryAIBranch h
    | exact h

theorem Pv_genericSuggestionStage {v : Verification} (h : Pv v) :
    Pv (genericSuggestionStage v) := by
  unfold genericSuggestionStage
  split
  · exact h
  · exact h

theorem Pv_enhancementStage {p : Product} {v : Verification} (h : Pv v) :
    Pv (enhancementStage p v) := by
  unfold enhancementStage
  dsimp only
  split
  · split
    · split
      · exact h
      · exact h
    · split
      · exact h
      · exact h
  · exact h

theorem imgPhase1_flag {cat : ImgCategoryPattern} {cc : List (ContentPattern × Q)}
    {s m : Q} :
    (imgPhase1 cat cc s m).2.1 = true →
    ∃ i ∈ (imgPhase1 cat cc s m).2.2.1, i.severity = str "critical" := by
  unfold imgPhase1
  split
  · intro h; simp at h
  · split
    · dsimp only
      split
      · intro _
        refine ⟨_, List.mem_singleton_self _, ?_⟩
        rfl
      · intro h; simp at h
    · intro h; simp at h

theorem analyzeWithCategory_invalid {cat : ImgCategoryPattern} {m : Q}
    {cc : List (ContentPattern × Q)} {s : Q} {u ul fe : Str}
    (h : (analyzeWithCategory cat m cc s u ul fe).isValid = false) :
    ∃ i ∈ (analyzeWithCategory cat m cc s u ul fe).issues,
      i.severity = str "critical" ∨ i.severity = str "high" := by
  unfold analyzeWithCategory at h ⊢
  dsimp only at h ⊢
  rw [Bool.not_eq_false'] at h
  simp only [Bool.or_eq_true] at h
  rcases h with hflag | hunit
  · obtain ⟨i, hi, hsev⟩ := imgPhase1_flag hflag
    exact ⟨i, by simp [hi], Or.inl hsev⟩
  · simp only [hunit]
    refine ⟨unitMismatchIssue u cat, ?_, Or.inr rfl⟩
    simp

theorem analyzeNoCategory_invalid {cc : List (ContentPattern × Q)} :
    (analyzeNoCategory cc).isValid = false →
    ∃ i ∈ (analyzeNoCategory cc).issues,
      i.severity = str "critical" ∨ i.severity = str "high" := by
  unfold analyzeNoCategory
  split
  · intro _
    dsimp only
    refine ⟨_, List.mem_singleton_self _, Or.inr ?_⟩
    rfl
  · intro h; simp at h

/-- Whenever the filename analyzer rejects an image, at least one of its
issues is critical or high. -/
theorem analyzeProductImage_invalid (url gpc unit name : Str)
    (h : (analyzeProductImage url gpc unit name).isValid = false) :
    ∃ i ∈ (analyzeProductImage url gpc unit name).issues,
      i.severity = str "critical" ∨ i.severity = str "high" := by
  revert h
  unfold analyzeProductImage
  dsimp only
  split
  · intro _
    exact ⟨invalidUrlIssue, by simp, Or.inl rfl⟩
  · split
    · exact fun h => analyzeWithCategory_invalid h
    · exact fun h => analyzeNoCategory_invalid h

theorem Pv_imageStage {p : Product} {v : Verification} (h : Pv v) :
    Pv (imageStage p v) := by
  unfold imageStage
  dsimp only
  split
  · split
    · rename_i hinv
      rw [Bool.not_eq_eq_eq_not, Bool.not_true] at hinv
      have hwit := analyzeProductImage_invalid p.front_image p.gpc p.unit
        p.productnameenglish hinv
      obtain ⟨i, hi, hsev⟩ := hwit
      have hsevne : i.severity.isEmpty = false := by
        rcases hsev with hs | hs <;> rw [hs] <;> decide
      have hmem' : (⟨str "Image Analysis",
          (if i.severity.isEmpty then
            (if containsSub (str "warning") i.type then str "medium" else str "high")
           else i.severity), i.message,
          some (jsOrNum (some i.confidence)
            (analyzeProductImage p.front_image p.gpc p.unit p.productnameenglish).confidence)⟩ :
          VIssue) ∈ v.issues ++
            ((analyzeProductImage p.front_image p.gpc p.unit p.productnameenglish).issues.map
              (fun i =>
                (⟨str "Image Analysis",
                  (if i.severity.isEmpty then
                    (if containsSub (str "warning") i.type then str "medium" else str "high")
                   else i.severity), i.message,
                  some (jsOrNum (some i.confidence)
                    (analyzeProductImage p.front_image p.gpc p.unit
                      p.productnameenglish).confidence)⟩ : VIssue))) := by
        refine List.mem_append_right _ (List.mem_map.mpr ⟨i, hi, rfl⟩)
      have hflip : Pv
          ({ v with
             isValid := false
             verificationStatus := str "unverified"
             issues := v.issues ++
               ((analyzeProductImage p.front_image p.gpc p.unit
                 p.productnameenglish).issues.map (fun i =>
                  (⟨str "Image Analysis",
                    (if i.severity.isEmpty then
                      (if containsSub (str "warning") i.type then str "medium" else str "high")
                     else i.severity), i.message,
                    some (jsOrNum (some i.confidence)
                      (analyzeProductImage p.front_image p.gpc p.unit
                        p.productnameenglish).confidence)⟩ : VIssue)))
             aiSuggestions := v.aiSuggestions ++
               ((analyzeProductImage p.front_image p.gpc p.unit
                 p.productnameenglish).issues.map (fun i =>
                  (⟨str "front_image",
                    (match i.suggestion with | some s => s | none => i.message),
                    imgImportance i.severity, [],
                    some (qIntStr (jsOrNum (some i.confidence)
                      (analyzeProductImage p.front_image p.gpc p.unit
                        p.productnameenglish).confidence) ++ str "%")⟩ : VSuggestion))) }) := by
        refine Pv_flip rfl rfl ⟨_, hmem', ?_⟩
        simp only [hsevne, Bool.false_eq_true, if_false]
        exact hsev
      split
      · exact hflip
      · exact hflip
    · exact h
  · exact h

theorem Pv_verifyProduct (p : Product) (unitData : Option UnitData)
    (prefetched : Str → List Str) : Pv (verifyProduct p unitData prefetched) := by
  unfold verifyProduct
  exact Pv_imageStage (Pv_enhancementStage (Pv_genericSuggestionStage
    (Pv_categoryStage (Pv_compatStage (Pv_requiredUnit (Pv_requiredGpc
      (Pv_requiredBrand (Pv_requiredImage Pv_initial))))))))

/-! ### Frame facts: the score and confidence level are never written, and no
stage ever writes `verified` into the status. -/

def FrameOk (v w : Verification) : Prop :=
  w.verificationScore = v.verificationScore ∧
  w.confidenceLevel = v.confidenceLevel ∧
  (w.verificationStatus = v.verificationStatus ∨ w.verificationStatus = str "unverified")

theorem frameOk_refl (v : Verification) : FrameOk v v := ⟨rfl, rfl, Or.inl rfl⟩

theorem frameOk_trans {u v w : Verification} (h1 : FrameOk u v) (h2 : FrameOk v w) :
    FrameOk u w := by
  refine ⟨h2.1.trans h1.1, h2.2.1.trans h1.2.1, ?_⟩
  rcases h2.2.2 with h | h
  · rw [h]; exact h1.2.2
  · exact Or.inr h

theorem frame_requiredImage (p : Product) (v : Verification) :
    FrameOk v (checkRequiredImage p v) := by
  unfold checkRequiredImage
  split
  · exact ⟨rfl, rfl, Or.inr rfl⟩
  · exact frameOk_refl v

theorem frame_requiredBrand (p : Product) (v : Verification) :
    FrameOk v (checkRequiredBrand p v) := by
  unfold checkRequiredBrand
  split
  · exact ⟨rfl, rfl, Or.inr rfl⟩
  · exact frameOk_refl v

theorem frame_requiredGpc (p : Product) (v : Verification) :
    FrameOk v (checkRequiredGpc p v) := by
  unfold checkRequiredGpc
  split
  · exact ⟨rfl, rfl, Or.inr rfl⟩
  · exact frameOk_refl v

theorem frame_requiredUnit (p : Product) (v : Verification) :
    FrameOk v (checkRequiredUnit p v) := by
  unfold checkRequiredUnit
  split
  · exact ⟨rfl, rfl, Or.inr rfl⟩
  · exact frameOk_refl v

theorem frame_compatStage (p : Product) (u : ParsedUnit) (v : Verification) :
    FrameOk v (compatStage p u v) := by
  unfold compatStage
  split
  · split
    · dsimp only
      split
      · exact ⟨rfl, rfl, Or.inr rfl⟩
      · exact frameOk_refl v
    · exact frameOk_refl v
  · exact frameOk_refl v

theorem frame_categoryFallback (p : Product) (a b c : Str) (v : Verification) :
    FrameOk v (categoryFallback p a b c v) := by
  unfold categoryFallback
  dsimp only
  repeat' split
  all_goals first
    | exact ⟨rfl, rfl, Or.inr rfl⟩
    | exact frameOk_refl v

theorem frame_categoryAIBranch (p : Product) (u : Option UnitData)
    (pre : Str → List Str) (cat : Str) (pc : Classification) (g : Str)
    (v : Verification) : FrameOk v (categoryAIBranch p u pre cat pc g v) := by
  unfold categoryAIBranch
  dsimp only
  repeat' split
  all_goals first
    | exact ⟨rfl, rfl, Or.inr rfl⟩
    | exact frameOk_refl v

theorem frame_categoryStage (p : Product) (u : Option UnitData) (g : ParsedGPC)
    (pre : Str → List Str) (v : Verification) : FrameOk v (categoryStage p u g pre v) := by
  unfold categoryStage
  dsimp only
  repeat' split
  all_goals first
    | exact frame_categoryFallback ..
    | exact frame_categoryAIBranch ..
    | exact frameOk_refl v

theorem frame_genericSuggestionStage (v : Verification) :
    FrameOk v (genericSuggestionStage v) := by
  unfold genericSuggestionStage
  split
  · exact ⟨rfl, rfl, Or.inl rfl⟩
  · exact frameOk_refl v

theorem frame_enhancementStage (p : Product) (v : Verification) :
    FrameOk v (enhancementStage p v) := by
  unfold enhancementStage
  dsimp only
  repeat' split
  all_goals exact ⟨rfl, rfl, Or.inl rfl⟩

theorem frame_imageStage (p : Product) (v : Verification) :
    FrameOk v (imageStage p v) := by
  unfold imageStage
  dsimp only
  repeat' split
  all_goals first
    | exact ⟨rfl, rfl, Or.inr rfl⟩
    | exact frameOk_refl v

theorem frame_verifyProduct (p : Product) (unitData : Option UnitData)
    (prefetched : Str → List Str) :
    FrameOk initialVerification (verifyProduct p unitData prefetched) := by
  unfold verifyProduct
  exact frameOk_trans (frameOk_trans (frameOk_trans (frameOk_trans (frameOk_trans
    (frameOk_trans (frameOk_trans (frameOk_trans (frame_requiredImage ..)
      (frame_requiredBrand ..)) (frame_requiredGpc ..)) (frame_requiredUnit ..))
        (frame_compatStage ..)) (frame_categoryStage ..))
          (frame_genericSuggestionStage ..)) (frame_enhancementStage ..))
            (frame_imageStage ..)

theorem status_pres {v w : Verification} (hf : FrameOk v w)
    (hv : v.verificationStatus = str "unverified") :
    w.verificationStatus = str "unverified" := by
  rcases hf.2.2 with h | h
  · rw [h, hv]
  · exact h

/-! ## The claims -/

/-- C1.  For every product submitted to the verification aggregator, the
returned result has `isValid = true` iff its issues list contains zero issues
of severity `critical` or `high`, and its status is `verified` iff `isValid`
is true. -/
theorem c1_isValid_iff_no_critical_high (p : Product) (unitData : Option UnitData)
    (prefetched : Str → List Str) :
    ((verifyProduct p unitData prefetched).isValid = true ↔
      ∀ i ∈ (verifyProduct p unitData prefetched).issues,
        i.severity ≠ str "critical" ∧ i.severity ≠ str "high") ∧
    ((verifyProduct p unitData prefetched).verificationStatus = str "verified" ↔
      (verifyProduct p unitData prefetched).isValid = true) := by
  obtain ⟨h1, h2, h3⟩ := Pv_verifyProduct p unitData prefetched
  refine ⟨⟨?_, ?_⟩, h1⟩
  · intro hv i hi
    rw [h2 hv] at hi
    cases hi
  · intro hall
    by_contra hv
    have hfalse : (verifyProduct p unitData prefetched).isValid = false := by
      cases hval : (verifyProduct p unitData prefetched).isValid
      · rfl
      · exact absurd hval hv
    obtain ⟨i, hi, hsev⟩ := h3 hfalse
    rcases hsev with hs | hs
    · exact (hall i hi).1 hs
    · exact (hall i hi).2 hs

/-- C5 (amended).  `verificationScore` is initialised to 100 and never
modified by any check, and `confidenceLevel` is fixed at 95; the score does
not depend on the recorded issues at all. -/
theorem c5_score_constant (p : Product) (unitData : Option UnitData)
    (prefetched : Str → List Str) :
    (verifyProduct p unitData prefetched).verificationScore = (100 : Q) ∧
    (verifyProduct p unitData prefetched).confidenceLevel = (95 : Q) := by
  have h := frame_verifyProduct p unitData prefetched
  exact ⟨h.1, h.2.1⟩

/-- C5 (counterexample).  A product missing every required field carries four
critical issues yet its `verificationScore` is not lower than that of a fully
verified, issue-free product — both are 100, refuting the claimed
severity-weighted decrements. -/
theorem c5_counterexample :
    ((verifyWithLookup ⟨[], [], [], [], []⟩ scenarioLookup (fun _ => [])).issues.countP
      (fun i => i.severity == str "critical") = 4) ∧
    (verifyWithLookup scenarioA scenarioLookup (fun _ => [])).issues = [] ∧
    qlt (verifyWithLookup ⟨[], [], [], [], []⟩ scenarioLookup
        (fun _ => [])).verificationScore
      (verifyWithLookup scenarioA scenarioLookup (fun _ => [])).verificationScore
      = false := by decide

inductive RequiredField
  | image
  | brand
  | gpcCode
  | unitCode

def clearField : RequiredField → Product → Product
  | .image, p => { p with front_image := [] }
  | .brand, p => { p with BrandName := [] }
  | .gpcCode, p => { p with gpc := [] }
  | .unitCode, p => { p with unit := [] }

/-- C8.  Making any additional required field (image reference, brand name,
classification code, or unit code) absent never increases the returned
`verificationScore` and never changes the returned status from unverified to
verified: the cleared product is always unverified, at an unchanged score. -/
theorem c8_missing_field_monotone (p : Product) (lookup : Str → Option UnitData)
    (prefetched : Str → List Str) (f : RequiredField) :
    (verifyWithLookup (clearField f p) lookup prefetched).verificationStatus
      = str "unverified" ∧
    qle (verifyWithLookup (clearField f p) lookup prefetched).verificationScore
      (verifyWithLookup p lookup prefetched).verificationScore = true := by
  have key : ∀ (q : Product) (ud : Option UnitData),
      (checkRequiredUnit q (checkRequiredGpc q (checkRequiredBrand q
        (checkRequiredImage q initialVerification)))).verificationStatus
          = str "unverified" →
      (verifyProduct q ud prefetched).verificationStatus = str "unverified" := by
    intro q ud h4
    unfold verifyProduct
    exact status_pres (frame_imageStage ..) (status_pres (frame_enhancementStage ..)
      (status_pres (frame_genericSuggestionStage ..) (status_pres (frame_categoryStage ..)
        (status_pres (frame_compatStage ..) h4))))
  constructor
  · unfold verifyWithLookup
    apply key
    cases f
    · exact status_pres (frame_requiredUnit ..) (status_pres (frame_requiredGpc ..)
        (status_pres (frame_requiredBrand ..) rfl))
    · exact status_pres (frame_requiredUnit ..) (status_pres (frame_requiredGpc ..) rfl)
    · exact status_pres (frame_requiredUnit ..) rfl
    · rfl
  · have h1 := (frame_verifyProduct (clearField f p)
      (if (clearField f p).unit.isEmpty then none
       else lookup (trimStr (clearField f p).unit)) prefetched).1
    have h2 := (frame_verifyProduct p
      (if p.unit.isEmpty then none else lookup (trimStr p.unit)) prefetched).1
    unfold verifyWithLookup
    rw [h1, h2]
    decide

/- C2 helper lemmas: the decision tail at the n-gram "liquid" state. -/

theorem compatDecide_liquid_weight (gpcDescription unitCode unitLower : Str) :
    (compatDecide (some (str "liquid"), Conf.rat (qd 95 100), str "n-gram")
      gpcDescription unitCode unitLower (str "weight")).compatible = false := rfl

theorem compatIndustry_volume (gpcDescription unitCode : Str)
    (hiw : indWashingPowder gpcDescription = false)
    (hie : indElectronics gpcDescription = false)
    (hic : indClothing gpcDescription = false) :
    compatIndustry gpcDescription unitCode (str "volume") = none := by
  unfold compatIndustry
  dsimp only
  rw [show (!((str "volume" : Str) == str "volume")) = false from rfl]
  rw [show ([str "rate", str "length", str "area"].any
        (fun t => t == (str "volume" : Str))) = false from rfl]
  simp only [Bool.and_false, hiw, hie, hic, Bool.false_and]
  rfl

theorem compatFormat_volume (unitCode unitLower : Str)
    (hvc : volumeUnitCodes.any (fun u => u == unitLower) = true) :
    (compatFormat unitCode unitLower (str "volume")).compatible = true := by
  unfold compatFormat
  rw [show ((unitValidationPatterns.find?
        (fun e => e.1 == (str "volume" : Str))).map (fun e => e.2))
      = some volumeUnitCodes from rfl]
  dsimp only
  rw [hvc]
  rfl

theorem compatDecide_liquid_volume (gpcDescription unitCode unitLower : Str)
    (hiw : indWashingPowder gpcDescription = false)
    (hie : indElectronics gpcDescription = false)
    (hic : indClothing gpcDescription = false)
    (hvc : volumeUnitCodes.any (fun u => u == unitLower) = true) :
    (compatDecide (some (str "liquid"), Conf.rat (qd 95 100), str "n-gram")
      gpcDescription unitCode unitLower (str "volume")).compatible = true := by
  unfold compatDecide
  rw [show compatStep5 (some (str "liquid"), Conf.rat (qd 95 100), str "n-gram")
        gpcDescription unitCode (str "volume") = none from rfl]
  rw [compatIndustry_volume gpcDescription unitCode hiw hie hic]
  exact compatFormat_volume unitCode unitLower hvc

/-- C2 (counterexample): the unit code `LB` resolves to the `volume`
dimension (its lower-casing contains the volume term `l`, which is tested
before the weight terms), yet the checker rejects it for an `engine oil`
description: the unit-format validation sees that `lb` is not a volume
unit code. So not every unit code whose resolved dimension is volume is
accepted. -/
theorem c2_counterexample :
    inferUnitType (some ⟨str "LB", str ""⟩) = some (str "volume") ∧
    (checkGpcUnitCompatibility (str "engine oil") (str "LB")
      (str "volume")).compatible = false := by decide

/-- C2 (amended): for a nonempty classification whose description contains
`engine oil` and does not match the earlier washing-powder n-gram, the
checker paired with unit dimension `weight` returns `compatible = false`
for every nonempty unit code (step 5 rejects any non-volume dimension for
the liquid category). Paired with dimension `volume` it returns
`compatible = true` whenever the lower-cased unit code is one of the
checker's volume unit codes (l, ltr, ml, cl, oz, gal, floz, liter) and the
description triggers no later industry rule; this condition is sufficient,
not necessary (see the counterexample for a volume-dimension code that is
rejected, and note that a code matching no validation pattern falls
through to compatible). -/
theorem c2_engine_oil_unit_dimension (gpcString unitCode : Str)
    (hg : gpcString ≠ []) (hu : unitCode ≠ [])
    (hd : containsSub (str "engine oil") (gpcDescOf (lowerStr gpcString)) = true)
    (hw : compatNgramWashing (gpcDescOf (lowerStr gpcString)) = false) :
    (checkGpcUnitCompatibility gpcString unitCode (str "weight")).compatible = false ∧
    (indWashingPowder (gpcDescOf (lowerStr gpcString)) = false →
     indElectronics (gpcDescOf (lowerStr gpcString)) = false →
     indClothing (gpcDescOf (lowerStr gpcString)) = false →
     volumeUnitCodes.any (fun u => u == lowerStr unitCode) = true →
     (checkGpcUnitCompatibility gpcString unitCode (str "volume")).compatible = true) := by
  have hg' : gpcString.isEmpty = false := by
    cases gpcString with
    | nil => exact absurd rfl hg
    | cons a l => rfl
  have hu' : unitCode.isEmpty = false := by
    cases unitCode with
    | nil => exact absurd rfl hu
    | cons a l => rfl
  have he := compatNgramEngineOil_of_contains hd
  constructor
  · unfold checkGpcUnitCompatibility
    rw [hg', hu', if_neg (by decide : ¬((false || false : Bool) = true))]
    dsimp only
    rw [hw, he]
    exact compatDecide_liquid_weight (gpcDescOf (lowerStr gpcString)) unitCode
      (lowerStr unitCode)
  · intro hiw hie hic hvc
    unfold checkGpcUnitCompatibility
    rw [hg', hu', if_neg (by decide : ¬((false || false : Bool) = true))]
    dsimp only
    rw [hw, he]
    exact compatDecide_liquid_volume (gpcDescOf (lowerStr gpcString)) unitCode
      (lowerStr unitCode) hiw hie hic hvc

theorem c2_engine_oil_unit_dimension_witness :
    (checkGpcUnitCompatibility (str "engine oil") (str "KG")
      (str "weight")).compatible = false ∧
    (checkGpcUnitCompatibility (str "engine oil") (str "L")
      (str "volume")).compatible = true :=
  ⟨(c2_engine_oil_unit_dimension (str "engine oil") (str "KG")
      (by decide) (by decide) (by decide) (by decide)).1,
   (c2_engine_oil_unit_dimension (str "engine oil") (str "L")
      (by decide) (by decide) (by decide) (by decide)).2
     (by decide) (by decide) (by decide) (by decide)⟩

/-- C3 (counterexample): a unit named `Kilogram` does not resolve to the
weight dimension: the volume term list (which contains the single letter
`l`) is tested before the weight terms, and `kilogram` contains an `l`, so
the resolver returns `volume`. -/
theorem c3_counterexample :
    inferUnitType (some ⟨str "", str "Kilogram"⟩) ≠ some (str "weight") ∧
    inferUnitType (some ⟨str "", str "Kilogram"⟩) = some (str "volume") := by decide

/-- C3 (amended): the code-driven part of the claim holds once the unit
name is constrained to dodge the earlier term lists: code `KG` resolves to
weight when the name matches no rate or volume term, code `L` resolves to
volume when the name matches no rate term, and code `PC` resolves to
quantity when the name matches no rate, volume or weight term. The
name-driven part (`kilogram`, `liter`, `piece`) is settled by the
counterexample: `kilogram` resolves to volume, not weight. -/
theorem c3_amended (nm1 nm2 nm3 : Str)
    (hr1 : anyTermIn rateTerms (lowerStr nm1) (str "kg") = false)
    (hv1 : anyTermIn volumeTerms (lowerStr nm1) (str "kg") = false)
    (hr2 : anyTermIn rateTerms (lowerStr nm2) (str "l") = false)
    (hr3 : anyTermIn rateTerms (lowerStr nm3) (str "pc") = false)
    (hv3 : anyTermIn volumeTerms (lowerStr nm3) (str "pc") = false)
    (hw3 : anyTermIn weightTerms (lowerStr nm3) (str "pc") = false) :
    inferUnitType (some ⟨str "KG", nm1⟩) = some (str "weight") ∧
    inferUnitType (some ⟨str "L", nm2⟩) = some (str "volume") ∧
    inferUnitType (some ⟨str "PC", nm3⟩) = some (str "quantity") := by
  refine ⟨?_, ?_, ?_⟩
  · unfold inferUnitType inferUnitTypeCore
    dsimp only
    rw [show lowerStr (str "KG") = str "kg" from rfl, hr1, hv1,
        anyTermIn_of_code (show (str "kg") ∈ weightTerms by decide)
          (show containsSub (str "kg") (str "kg") = true by decide)]
    rfl
  · unfold inferUnitType inferUnitTypeCore
    dsimp only
    rw [show lowerStr (str "L") = str "l" from rfl, hr2,
        anyTermIn_of_code (show (str "l") ∈ volumeTerms by decide)
          (show containsSub (str "l") (str "l") = true by decide)]
    rfl
  · unfold inferUnitType inferUnitTypeCore
    dsimp only
    rw [show lowerStr (str "PC") = str "pc" from rfl, hr3, hv3, hw3,
        anyTermIn_of_code (show (str "pc") ∈ quantityTerms by decide)
          (show containsSub (str "pc") (str "pc") = true by decide)]
    rfl

theorem c3_amended_witness :
    inferUnitType (some ⟨str "KG", str ""⟩) = some (str "weight") ∧
    inferUnitType (some ⟨str "L", str ""⟩) = some (str "volume") ∧
    inferUnitType (some ⟨str "PC", str ""⟩) = some (str "quantity") :=
  c3_amended (str "") (str "") (str "")
    (by decide) (by decide) (by decide) (by decide) (by decide) (by decide)

/-- C4 (counterexample): for the scenario-B product (name `PROMAX SP 0W16`,
brand `SAMA OIL`, classification `20002871-Type of Engine Oil Target`,
image `front-oil-bottle.jpg`, unit `PC`) the aggregator does not return
exactly one high-severity issue, and no suggestion recommends `L, ML, LTR`:
the image analysis contributes a second high-severity issue, and the unit
suggestion (from the liquid category of the compatibility checker)
recommends `L, ML, FL OZ`. -/
theorem c4_counterexample :
    ¬((((verifyWithLookup scenarioB scenarioLookup (fun _ => [])).issues.filter
          (fun i => i.severity == str "high")).length = 1) ∧
      ((verifyWithLookup scenarioB scenarioLookup (fun _ => [])).aiSuggestions.any
          (fun s => s.recommendedUnits == [str "L", str "ML", str "LTR"]) = true)) := by
  decide

/-- C4 (amended): for the scenario-B product the aggregator returns status
`unverified` with exactly two high-severity issues, `Unit Compatibility`
and `Image Analysis`, and the unit suggestion recommends `L, ML, FL OZ`. -/
theorem c4_amended :
    (verifyWithLookup scenarioB scenarioLookup (fun _ => [])).verificationStatus
      = str "unverified" ∧
    (verifyWithLookup scenarioB scenarioLookup (fun _ => [])).issues.map
      (fun i => (i.rule, i.severity))
      = [(str "Unit Compatibility", str "high"), (str "Image Analysis", str "high")] ∧
    (verifyWithLookup scenarioB scenarioLookup (fun _ => [])).aiSuggestions.any
      (fun s => s.field == str "unit" &&
        s.recommendedUnits == [str "L", str "ML", str "FL OZ"]) = true := by
  decide

/-- C10: when the classification string or the unit code is empty (the
model's rendering of null/empty), the compatibility checker returns its
default result: `compatible = true`, no reason, no recommended units. -/
theorem c10_empty_inputs_compatible (gpcString unitCode unitType : Str)
    (h : gpcString = [] ∨ unitCode = []) :
    checkGpcUnitCompatibility gpcString unitCode unitType = compatTrue := by
  unfold checkGpcUnitCompatibility
  rcases h with h | h
  · subst h
    rfl
  · subst h
    cases gpcString with
    | nil => rfl
    | cons a l => rfl

theorem c10_empty_inputs_compatible_witness :
    checkGpcUnitCompatibility [] (str "KG") (str "weight") = compatTrue :=
  c10_empty_inputs_compatible [] (str "KG") (str "weight") (Or.inl rfl)

/-- C7: whenever the combined lower-cased text (name, brand and
classification joined by spaces) contains a `\b\d+w\d+\b` viscosity-grade
token, the classifier returns the `oil_product` category with confidence at
least 90: either contextual rule 1 fires first (engine/motor ∧ oil context,
confidence 95), or contextual rule 2 fires on the viscosity token
(confidence 98); both precede the n-gram and keyword passes. -/
theorem c7_viscosity_classifies_oil (productName brandName gpcString : Str)
    (h : hasViscosityToken (lowerStr productName ++ str " " ++ lowerStr brandName ++
          str " " ++ lowerStr gpcString) = true) :
    (classifyProductType productName brandName gpcString).category
      = some (str "oil_product") ∧
    qle 90 (classifyProductType productName brandName gpcString).confidence = true := by
  unfold classifyProductType
  dsimp only
  by_cases h1 : ctxRule1 (lowerStr productName ++ str " " ++ lowerStr brandName ++
      str " " ++ lowerStr gpcString) = true
  · rw [h1]
    exact ⟨rfl, rfl⟩
  · rw [Bool.not_eq_true] at h1
    have h2 : ctxRule2 (lowerStr productName ++ str " " ++ lowerStr brandName ++
        str " " ++ lowerStr gpcString) = true := by
      unfold ctxRule2
      rw [h]
      rfl
    rw [h1, h2]
    exact ⟨rfl, rfl⟩

theorem c7_viscosity_classifies_oil_witness :
    (classifyProductType (str "X 5W30") (str "") (str "")).category
      = some (str "oil_product") ∧
    qle 90 (classifyProductType (str "X 5W30") (str "") (str "")).confidence = true :=
  c7_viscosity_classifies_oil (str "X 5W30") (str "") (str "") (by decide)

/-- The penalty table exactly as the specification words it (critical 40,
high 25, medium 15, low 5, info 0); spec-modelled, for comparison with the
source's `severityWeightOf`, whose `|| 10` default makes `info` weigh 10. -/
def specSeverityPenalty (sev : Str) : Q :=
  if sev == str "critical" then 40
  else if sev == str "high" then 25
  else if sev == str "medium" then 15
  else if sev == str "low" then 5
  else 0

/-- The confidence formula exactly as the specification words it:
`max(0, 100 - Σ penalty)` over the open issues, in every case. -/
def specConfidence (issues : List ImgIssue) : Q :=
  qmax 0 (qsub 100 (issues.foldl (fun t i => qadd t (specSeverityPenalty i.severity)) 0))

theorem analyzeWithCategory_confidence (cat : ImgCategoryPattern) (metaScore : Q)
    (contentCats : List (ContentPattern × Q)) (imgScore : Q)
    (unit unitLower fileExtension : Str) :
    (analyzeWithCategory cat metaScore contentCats imgScore unit unitLower
        fileExtension).confidence =
      (if (analyzeWithCategory cat metaScore contentCats imgScore unit unitLower
            fileExtension).issues.isEmpty then
        qmax 70 (analyzeWithCategory cat metaScore contentCats imgScore unit unitLower
            fileExtension).semanticScore
      else
        qmax 0 (qsub 100 (issuesWeightSum
          (analyzeWithCategory cat metaScore contentCats imgScore unit unitLower
            fileExtension).issues))) := rfl

theorem analyzeNoCategory_confidence (contentCats : List (ContentPattern × Q)) :
    (analyzeNoCategory contentCats).confidence =
      (if (analyzeNoCategory contentCats).issues.isEmpty then
        qmax 70 (analyzeNoCategory contentCats).semanticScore
      else
        qmax 0 (qsub 100 (issuesWeightSum (analyzeNoCategory contentCats).issues))) := by
  cases contentCats with
  | nil => rfl
  | cons h t => rfl

/-- C6 (amended): for a nonempty image URL, the analyzer's confidence is
`max(70, semanticScore)` when the issue list is empty, and otherwise
`max(0, 100 - Σ severityWeight)` where the weights are critical 40, high
25, medium 15, low 5 and, because the declared `info` weight `0` is falsy
under `|| 10`, every other severity (including `info` and `warning`)
weighs 10. -/
theorem c6_image_confidence (imageUrl gpc unit productName : Str)
    (h : imageUrl ≠ []) :
    (analyzeProductImage imageUrl gpc unit productName).confidence =
      (if (analyzeProductImage imageUrl gpc unit productName).issues.isEmpty then
        qmax 70 (analyzeProductImage imageUrl gpc unit productName).semanticScore
      else
        qmax 0 (qsub 100 (issuesWeightSum
          (analyzeProductImage imageUrl gpc unit productName).issues))) := by
  cases imageUrl with
  | nil => exact absurd rfl h
  | cons a l =>
    unfold analyzeProductImage
    dsimp only
    rw [show (List.map (fun c => if c = '\\' then '/' else c) (a :: l)).isEmpty = false
        from rfl]
    rw [if_neg (by decide : ¬((false : Bool) = true))]
    split
    · exact analyzeWithCategory_confidence ..
    · exact analyzeNoCategory_confidence ..

theorem c6_image_confidence_witness :
    (analyzeProductImage (str "zzz.jpg") (str "Motor Oils") (str "L")
        (str "")).confidence =
      (if (analyzeProductImage (str "zzz.jpg") (str "Motor Oils") (str "L")
            (str "")).issues.isEmpty then
        qmax 70 (analyzeProductImage (str "zzz.jpg") (str "Motor Oils") (str "L")
            (str "")).semanticScore
      else
        qmax 0 (qsub 100 (issuesWeightSum
          (analyzeProductImage (str "zzz.jpg") (str "Motor Oils") (str "L")
            (str "")).issues))) :=
  c6_image_confidence (str "zzz.jpg") (str "Motor Oils") (str "L") (str "")
    (by decide)

/-- C6 (counterexample): the claimed formula `max(0, 100 - Σ penalty)` with
`info` weighing 0 disagrees with the analyzer twice over. With no issues
(`front-oil-bottle.jpg` against `Motor Oils`) the formula gives 100 but the
analyzer returns `max(70, semanticScore) = 70`; with a single info-severity
issue (`zzz.jpg` against `Motor Oils`) the formula gives 100 but the
analyzer charges the info issue 10 and returns 90. -/
theorem c6_counterexample :
    ((analyzeProductImage (str "front-oil-bottle.jpg") (str "Motor Oils") (str "L")
        (str "")).issues = [] ∧
     qeqb (analyzeProductImage (str "front-oil-bottle.jpg") (str "Motor Oils")
        (str "L") (str "")).confidence
       (specConfidence (analyzeProductImage (str "front-oil-bottle.jpg")
          (str "Motor Oils") (str "L") (str "")).issues) = false ∧
     qeqb (analyzeProductImage (str "front-oil-bottle.jpg") (str "Motor Oils")
        (str "L") (str "")).confidence 70 = true) ∧
    ((analyzeProductImage (str "zzz.jpg") (str "Motor Oils") (str "L")
        (str "")).issues.map (fun i => i.severity) = [str "info"] ∧
     qeqb (analyzeProductImage (str "zzz.jpg") (str "Motor Oils") (str "L")
        (str "")).confidence
       (specConfidence (analyzeProductImage (str "zzz.jpg") (str "Motor Oils")
          (str "L") (str "")).issues) = false ∧
     qeqb (analyzeProductImage (str "zzz.jpg") (str "Motor Oils") (str "L")
        (str "")).confidence 90 = true) := by decide

/-- C9 (counterexample): when the Clarifai call for a product fails (the
`try` block throws), the product's verification is marked `unverified` and
the recorded issue is `Image Content Verification` with severity `high` and
message `Failed to verify image: …` — there is no `undetermined` verdict
and no low-severity issue; the verdict's confidence is 0 and, because the
fallback result has no `expectedConcepts`, the remediation suggestion is
skipped (the TypeError is swallowed by the enclosing catch). -/
theorem c9_counterexample :
    (clarifaiStage (str "img.jpg") (str "P") (Except.error (str "timeout"))
        v5Initial).issues.map (fun i => (i.rule, i.severity, i.message))
      = [(str "Image Content Verification", str "high",
          str "Failed to verify image: timeout")] ∧
    (clarifaiStage (str "img.jpg") (str "P") (Except.error (str "timeout"))
        v5Initial).verificationStatus = str "unverified" ∧
    (clarifaiStage (str "img.jpg") (str "P") (Except.error (str "timeout"))
        v5Initial).issues.any (fun i => i.severity == str "low") = false ∧
    (clarifaiStage (str "img.jpg") (str "P") (Except.error (str "timeout"))
        v5Initial).aiSuggestions = [] ∧
    (clarifaiStage (str "img.jpg") (str "P") (Except.error (str "timeout"))
        v5Initial).clarifai
      = some { valid := false, message := str "Failed to verify image: timeout",
               error := some (str "timeout"), conceptMatches := [], score := none,
               confidence := 0, expectedConcepts := none, detectedConcepts := none,
               imageUrl := some (str "img.jpg") } := by decide

/-- C9 (amended): the batch maps one independent stage application over each
product, so a product whose recognition call failed still contributes its
own result to the batch; that result is `unverified`, its last issue is the
high-severity `Image Content Verification` issue carrying
`Failed to verify image: <error>`, and no remediation suggestion is added. -/
theorem c9_failure_isolated (jobs : List ClarifaiJob) (j : ClarifaiJob)
    (hj : j ∈ jobs) (e : Str) (hfail : j.outcome = Except.error e)
    (himg : j.front_image ≠ []) :
    clarifaiStage j.front_image j.productName j.outcome j.base ∈ clarifaiBatch jobs ∧
    (clarifaiStage j.front_image j.productName j.outcome j.base).verificationStatus
      = str "unverified" ∧
    (clarifaiStage j.front_image j.productName j.outcome j.base).issues.getLast?
      = some ⟨str "Image Content Verification", str "high",
          str "Failed to verify image: " ++ e, none⟩ ∧
    (clarifaiStage j.front_image j.productName j.outcome j.base).aiSuggestions
      = j.base.aiSuggestions := by
  refine ⟨List.mem_map_of_mem _ hj, ?_⟩
  cases j with
  | mk img nm outc base =>
    dsimp only at hfail himg ⊢
    subst hfail
    cases img with
    | nil => exact absurd rfl himg
    | cons a l =>
      refine ⟨rfl, ?_, rfl⟩
      exact List.getLast?_concat _

theorem c9_failure_isolated_witness :
    clarifaiStage (str "img.jpg") (str "P") (Except.error (str "boom")) v5Initial ∈
      clarifaiBatch [⟨str "img.jpg", str "P", Except.error (str "boom"), v5Initial⟩] ∧
    (clarifaiStage (str "img.jpg") (str "P") (Except.error (str "boom"))
        v5Initial).verificationStatus = str "unverified" ∧
    (clarifaiStage (str "img.jpg") (str "P") (Except.error (str "boom"))
        v5Initial).issues.getLast?
      = some ⟨str "Image Content Verification", str "high",
          str "Failed to verify image: " ++ str "boom", none⟩ ∧
    (clarifaiStage (str "img.jpg") (str "P") (Except.error (str "boom"))
        v5Initial).aiSuggestions = v5Initial.aiSuggestions :=
  c9_failure_isolated [⟨str "img.jpg", str "P", Except.error (str "boom"), v5Initial⟩]
    ⟨str "img.jpg", str "P", Except.error (str "boom"), v5Initial⟩
    (List.mem_singleton_self _) (str "boom") rfl (by decide)
